import Mathlib

/-!
A verification development for the standalone BIP-340 Schnorr signature
implementation (`schnorr_standalone.c`).  The C code is shallowly embedded:
machine integers become `Nat` with explicit `% 2^w` truncation wherever the C
arithmetic can wrap, byte buffers become `List Nat` (each element a byte
value), null-able pointers become `Option`, and the out-parameter style of the
C API becomes plain return values.  The functions `secp256k1_gej_double_var`,
`secp256k1_gej_add_ge_var`, `secp256k1_gej_add_zinv_var`,
`secp256k1_ecmult_gen` and `secp256k1_ecmult` are aborting stubs in the
source; where a protocol function calls one of them, the embedding takes the
stub's result as an explicit oracle parameter, and theorems about behaviour
that does not depend on the stub quantify over the oracle.
-/

/-! ## Machine-word helpers -/

/-- Wrap-around bound of a 32-bit word. -/
def W32 : Nat := 2 ^ 32

/-- Wrap-around bound of a 64-bit word. -/
def W64 : Nat := 2 ^ 64

/-- Wrap-around bound of a 128-bit accumulator. -/
def W128 : Nat := 2 ^ 128

/-- `secp256k1_u128_mul`: 64x64 -> 128 bit multiply. -/
def secp256k1_u128_mul (a b : Nat) : Nat := a * b % W128

/-- `secp256k1_u128_accum_mul`: add a 64x64 product into a 128-bit accumulator. -/
def secp256k1_u128_accum_mul (r a b : Nat) : Nat := (r + a * b) % W128

/-- `secp256k1_u128_accum_u64`: add a 64-bit value into a 128-bit accumulator. -/
def secp256k1_u128_accum_u64 (r a : Nat) : Nat := (r + a) % W128

/-- `secp256k1_u128_rshift`: right shift of a 128-bit accumulator. -/
def secp256k1_u128_rshift (r n : Nat) : Nat := r >>> n

/-- `secp256k1_u128_to_u64`: low 64 bits of a 128-bit accumulator. -/
def secp256k1_u128_to_u64 (a : Nat) : Nat := a % W64

/-- `secp256k1_u128_hi_u64`: high 64 bits of a 128-bit accumulator. -/
def secp256k1_u128_hi_u64 (a : Nat) : Nat := a >>> 64

/-- `secp256k1_u128_from_u64`: widen a 64-bit word. -/
def secp256k1_u128_from_u64 (a : Nat) : Nat := a

/-- `secp256k1_read_be32`: read a big-endian 32-bit word from a byte buffer. -/
def secp256k1_read_be32 (p : List Nat) : Nat :=
  p.getD 0 0 <<< 24 ||| p.getD 1 0 <<< 16 ||| p.getD 2 0 <<< 8 ||| p.getD 3 0

/-- `secp256k1_write_be32`: write a 32-bit word as 4 big-endian bytes
(each store truncates to an unsigned char). -/
def secp256k1_write_be32 (x : Nat) : List Nat :=
  [x >>> 24 % 256, x >>> 16 % 256, x >>> 8 % 256, x % 256]

/-- `secp256k1_read_be64`: read a big-endian 64-bit word from a byte buffer. -/
def secp256k1_read_be64 (p : List Nat) : Nat :=
  p.getD 0 0 <<< 56 ||| p.getD 1 0 <<< 48 ||| p.getD 2 0 <<< 40 ||| p.getD 3 0 <<< 32 |||
  p.getD 4 0 <<< 24 ||| p.getD 5 0 <<< 16 ||| p.getD 6 0 <<< 8 ||| p.getD 7 0

/-- `secp256k1_write_be64`: write a 64-bit word as 8 big-endian bytes. -/
def secp256k1_write_be64 (x : Nat) : List Nat :=
  [x >>> 56 % 256, x >>> 48 % 256, x >>> 40 % 256, x >>> 32 % 256,
   x >>> 24 % 256, x >>> 16 % 256, x >>> 8 % 256, x % 256]

/-- `secp256k1_memczero`: zero a byte buffer when `flag` is set (the C code
uses a constant-time mask `-flag`; with `flag = 1` every byte is ANDed with
`0x00`, with `flag = 0` it is left unchanged). -/
def secp256k1_memczero (s : List Nat) (flag : Bool) : List Nat :=
  s.map fun b => if flag then 0 else b

/-- `secp256k1_memcmp_var` restricted to its use sites: compare the first `n`
bytes of two buffers, returning the first nonzero byte difference. -/
def secp256k1_memcmp_var : List Nat → List Nat → Nat → Int
  | _, _, 0 => 0
  | p1, p2, n + 1 =>
    let diff : Int := (p1.headD 0 : Int) - (p2.headD 0 : Int)
    if diff ≠ 0 then diff else secp256k1_memcmp_var p1.tail p2.tail n

/-! ## SHA-256 -/

/-- `secp256k1_sha256` state: eight 32-bit state words, the buffered tail of
the written data (the C struct keeps a 64-byte array of which only
`bytes % 64` leading bytes are meaningful; the embedding keeps exactly those
bytes), and the total byte counter. -/
structure secp256k1_sha256 where
  s : List Nat
  buf : List Nat
  bytes : Nat
deriving DecidableEq, Repr

/-- SHA-256 `Ch` on 32-bit words. -/
def sha_Ch (x y z : Nat) : Nat := z ^^^ (x &&& (y ^^^ z))

/-- SHA-256 `Maj` on 32-bit words. -/
def sha_Maj (x y z : Nat) : Nat := (x &&& y) ||| (z &&& (x ||| y))

/-- SHA-256 upper-case `Sigma0` (the C macro computes each rotation as a pair
of shifts of a 32-bit word; the left shifts wrap modulo `2^32`). -/
def sha_bigSigma0 (x : Nat) : Nat :=
  (x >>> 2 ||| x <<< 30 % W32) ^^^ (x >>> 13 ||| x <<< 19 % W32) ^^^
  (x >>> 22 ||| x <<< 10 % W32)

/-- SHA-256 upper-case `Sigma1`. -/
def sha_bigSigma1 (x : Nat) : Nat :=
  (x >>> 6 ||| x <<< 26 % W32) ^^^ (x >>> 11 ||| x <<< 21 % W32) ^^^
  (x >>> 25 ||| x <<< 7 % W32)

/-- SHA-256 lower-case `sigma0`. -/
def sha_sigma0 (x : Nat) : Nat :=
  (x >>> 7 ||| x <<< 25 % W32) ^^^ (x >>> 18 ||| x <<< 14 % W32) ^^^ x >>> 3

/-- SHA-256 lower-case `sigma1`. -/
def sha_sigma1 (x : Nat) : Nat :=
  (x >>> 17 ||| x <<< 15 % W32) ^^^ (x >>> 19 ||| x <<< 13 % W32) ^^^ x >>> 10

/-- `secp256k1_sha256_transform`: one SHA-256 compression of a 64-byte block
`buf` into the state words `s`.  The 64 unrolled rounds follow the source
line by line (each C `Round(a,...,h,k,w)` expands to the `t1`/`t2`
computation, `d += t1` and `h = t1 + t2`, with the register roles rotating). -/
def secp256k1_sha256_transform (s : List Nat) (buf : List Nat) : List Nat :=
  let a := s.getD 0 0
  let b := s.getD 1 0
  let c := s.getD 2 0
  let d := s.getD 3 0
  let e := s.getD 4 0
  let f := s.getD 5 0
  let g := s.getD 6 0
  let h := s.getD 7 0
  let w0 := secp256k1_read_be32 (buf.drop 0)
  let t1 := (h + sha_bigSigma1 e + sha_Ch e f g + 0x428a2f98 + w0) % W32
  let t2 := (sha_bigSigma0 a + sha_Maj a b c) % W32
  let d := (d + t1) % W32
  let h := (t1 + t2) % W32
  let w1 := secp256k1_read_be32 (buf.drop 4)
  let t1 := (g + sha_bigSigma1 d + sha_Ch d e f + 0x71374491 + w1) % W32
  let t2 := (sha_bigSigma0 h + sha_Maj h a b) % W32
  let c := (c + t1) % W32
  let g := (t1 + t2) % W32
  let w2 := secp256k1_read_be32 (buf.drop 8)
  let t1 := (f + sha_bigSigma1 c + sha_Ch c d e + 0xb5c0fbcf + w2) % W32
  let t2 := (sha_bigSigma0 g + sha_Maj g h a) % W32
  let b := (b + t1) % W32
  let f := (t1 + t2) % W32
  let w3 := secp256k1_read_be32 (buf.drop 12)
  let t1 := (e + sha_bigSigma1 b + sha_Ch b c d + 0xe9b5dba5 + w3) % W32
  let t2 := (sha_bigSigma0 f + sha_Maj f g h) % W32
  let a := (a + t1) % W32
  let e := (t1 + t2) % W32
  let w4 := secp256k1_read_be32 (buf.drop 16)
  let t1 := (d + sha_bigSigma1 a + sha_Ch a b c + 0x3956c25b + w4) % W32
  let t2 := (sha_bigSigma0 e + sha_Maj e f g) % W32
  let h := (h + t1) % W32
  let d := (t1 + t2) % W32
  let w5 := secp256k1_read_be32 (buf.drop 20)
  let t1 := (c + sha_bigSigma1 h + sha_Ch h a b + 0x59f111f1 + w5) % W32
  let t2 := (sha_bigSigma0 d + sha_Maj d e f) % W32
  let g := (g + t1) % W32
  let c := (t1 + t2) % W32
  let w6 := secp256k1_read_be32 (buf.drop 24)
  let t1 := (b + sha_bigSigma1 g + sha_Ch g h a + 0x923f82a4 + w6) % W32
  let t2 := (sha_bigSigma0 c + sha_Maj c d e) % W32
  let f := (f + t1) % W32
  let b := (t1 + t2) % W32
  let w7 := secp256k1_read_be32 (buf.drop 28)
  let t1 := (a + sha_bigSigma1 f + sha_Ch f g h + 0xab1c5ed5 + w7) % W32
  let t2 := (sha_bigSigma0 b + sha_Maj b c d) % W32
  let e := (e + t1) % W32
  let a := (t1 + t2) % W32
  let w8 := secp256k1_read_be32 (buf.drop 32)
  let t1 := (h + sha_bigSigma1 e + sha_Ch e f g + 0xd807aa98 + w8) % W32
  let t2 := (sha_bigSigma0 a + sha_Maj a b c) % W32
  let d := (d + t1) % W32
  let h := (t1 + t2) % W32
  let w9 := secp256k1_read_be32 (buf.drop 36)
  let t1 := (g + sha_bigSigma1 d + sha_Ch d e f + 0x12835b01 + w9) % W32
  let t2 := (sha_bigSigma0 h + sha_Maj h a b) % W32
  let c := (c + t1) % W32
  let g := (t1 + t2) % W32
  let w10 := secp256k1_read_be32 (buf.drop 40)
  let t1 := (f + sha_bigSigma1 c + sha_Ch c d e + 0x243185be + w10) % W32
  let t2 := (sha_bigSigma0 g + sha_Maj g h a) % W32
  let b := (b + t1) % W32
  let f := (t1 + t2) % W32
  let w11 := secp256k1_read_be32 (buf.drop 44)
  let t1 := (e + sha_bigSigma1 b + sha_Ch b c d + 0x550c7dc3 + w11) % W32
  let t2 := (sha_bigSigma0 f + sha_Maj f g h) % W32
  let a := (a + t1) % W32
  let e := (t1 + t2) % W32
  let w12 := secp256k1_read_be32 (buf.drop 48)
  let t1 := (d + sha_bigSigma1 a + sha_Ch a b c + 0x72be5d74 + w12) % W32
  let t2 := (sha_bigSigma0 e + sha_Maj e f g) % W32
  let h := (h + t1) % W32
  let d := (t1 + t2) % W32
  let w13 := secp256k1_read_be32 (buf.drop 52)
  let t1 := (c + sha_bigSigma1 h + sha_Ch h a b + 0x80deb1fe + w13) % W32
  let t2 := (sha_bigSigma0 d + sha_Maj d e f) % W32
  let g := (g + t1) % W32
  let c := (t1 + t2) % W32
  let w14 := secp256k1_read_be32 (buf.drop 56)
  let t1 := (b + sha_bigSigma1 g + sha_Ch g h a + 0x9bdc06a7 + w14) % W32
  let t2 := (sha_bigSigma0 c + sha_Maj c d e) % W32
  let f := (f + t1) % W32
  let b := (t1 + t2) % W32
  let w15 := secp256k1_read_be32 (buf.drop 60)
  let t1 := (a + sha_bigSigma1 f + sha_Ch f g h + 0xc19bf174 + w15) % W32
  let t2 := (sha_bigSigma0 b + sha_Maj b c d) % W32
  let e := (e + t1) % W32
  let a := (t1 + t2) % W32
  let w0 := (w0 + sha_sigma1 w14 + w9 + sha_sigma0 w1) % W32
  let t1 := (h + sha_bigSigma1 e + sha_Ch e f g + 0xe49b69c1 + w0) % W32
  let t2 := (sha_bigSigma0 a + sha_Maj a b c) % W32
  let d := (d + t1) % W32
  let h := (t1 + t2) % W32
  let w1 := (w1 + sha_sigma1 w15 + w10 + sha_sigma0 w2) % W32
  let t1 := (g + sha_bigSigma1 d + sha_Ch d e f + 0xefbe4786 + w1) % W32
  let t2 := (sha_bigSigma0 h + sha_Maj h a b) % W32
  let c := (c + t1) % W32
  let g := (t1 + t2) % W32
  let w2 := (w2 + sha_sigma1 w0 + w11 + sha_sigma0 w3) % W32
  let t1 := (f + sha_bigSigma1 c + sha_Ch c d e + 0x0fc19dc6 + w2) % W32
  let t2 := (sha_bigSigma0 g + sha_Maj g h a) % W32
  let b := (b + t1) % W32
  let f := (t1 + t2) % W32
  let w3 := (w3 + sha_sigma1 w1 + w12 + sha_sigma0 w4) % W32
  let t1 := (e + sha_bigSigma1 b + sha_Ch b c d + 0x240ca1cc + w3) % W32
  let t2 := (sha_bigSigma0 f + sha_Maj f g h) % W32
  let a := (a + t1) % W32
  let e := (t1 + t2) % W32
  let w4 := (w4 + sha_sigma1 w2 + w13 + sha_sigma0 w5) % W32
  let t1 := (d + sha_bigSigma1 a + sha_Ch a b c + 0x2de92c6f + w4) % W32
  let t2 := (sha_bigSigma0 e + sha_Maj e f g) % W32
  let h := (h + t1) % W32
  let d := (t1 + t2) % W32
  let w5 := (w5 + sha_sigma1 w3 + w14 + sha_sigma0 w6) % W32
  let t1 := (c + sha_bigSigma1 h + sha_Ch h a b + 0x4a7484aa + w5) % W32
  let t2 := (sha_bigSigma0 d + sha_Maj d e f) % W32
  let g := (g + t1) % W32
  let c := (t1 + t2) % W32
  let w6 := (w6 + sha_sigma1 w4 + w15 + sha_sigma0 w7) % W32
  let t1 := (b + sha_bigSigma1 g + sha_Ch g h a + 0x5cb0a9dc + w6) % W32
  let t2 := (sha_bigSigma0 c + sha_Maj c d e) % W32
  let f := (f + t1) % W32
  let b := (t1 + t2) % W32
  let w7 := (w7 + sha_sigma1 w5 + w0 + sha_sigma0 w8) % W32
  let t1 := (a + sha_bigSigma1 f + sha_Ch f g h + 0x76f988da + w7) % W32
  let t2 := (sha_bigSigma0 b + sha_Maj b c d) % W32
  let e := (e + t1) % W32
  let a := (t1 + t2) % W32
  let w8 := (w8 + sha_sigma1 w6 + w1 + sha_sigma0 w9) % W32
  let t1 := (h + sha_bigSigma1 e + sha_Ch e f g + 0x983e5152 + w8) % W32
  let t2 := (sha_bigSigma0 a + sha_Maj a b c) % W32
  let d := (d + t1) % W32
  let h := (t1 + t2) % W32
  let w9 := (w9 + sha_sigma1 w7 + w2 + sha_sigma0 w10) % W32
  let t1 := (g + sha_bigSigma1 d + sha_Ch d e f + 0xa831c66d + w9) % W32
  let t2 := (sha_bigSigma0 h + sha_Maj h a b) % W32
  let c := (c + t1) % W32
  let g := (t1 + t2) % W32
  let w10 := (w10 + sha_sigma1 w8 + w3 + sha_sigma0 w11) % W32
  let t1 := (f + sha_bigSigma1 c + sha_Ch c d e + 0xb00327c8 + w10) % W32
  let t2 := (sha_bigSigma0 g + sha_Maj g h a) % W32
  let b := (b + t1) % W32
  let f := (t1 + t2) % W32
  let w11 := (w11 + sha_sigma1 w9 + w4 + sha_sigma0 w12) % W32
  let t1 := (e + sha_bigSigma1 b + sha_Ch b c d + 0xbf597fc7 + w11) % W32
  let t2 := (sha_bigSigma0 f + sha_Maj f g h) % W32
  let a := (a + t1) % W32
  let e := (t1 + t2) % W32
  let w12 := (w12 + sha_sigma1 w10 + w5 + sha_sigma0 w13) % W32
  let t1 := (d + sha_bigSigma1 a + sha_Ch a b c + 0xc6e00bf3 + w12) % W32
  let t2 := (sha_bigSigma0 e + sha_Maj e f g) % W32
  let h := (h + t1) % W32
  let d := (t1 + t2) % W32
  let w13 := (w13 + sha_sigma1 w11 + w6 + sha_sigma0 w14) % W32
  let t1 := (c + sha_bigSigma1 h + sha_Ch h a b + 0xd5a79147 + w13) % W32
  let t2 := (sha_bigSigma0 d + sha_Maj d e f) % W32
  let g := (g + t1) % W32
  let c := (t1 + t2) % W32
  let w14 := (w14 + sha_sigma1 w12 + w7 + sha_sigma0 w15) % W32
  let t1 := (b + sha_bigSigma1 g + sha_Ch g h a + 0x06ca6351 + w14) % W32
  let t2 := (sha_bigSigma0 c + sha_Maj c d e) % W32
  let f := (f + t1) % W32
  let b := (t1 + t2) % W32
  let w15 := (w15 + sha_sigma1 w13 + w8 + sha_sigma0 w0) % W32
  let t1 := (a + sha_bigSigma1 f + sha_Ch f g h + 0x14292967 + w15) % W32
  let t2 := (sha_bigSigma0 b + sha_Maj b c d) % W32
  let e := (e + t1) % W32
  let a := (t1 + t2) % W32
  let w0 := (w0 + sha_sigma1 w14 + w9 + sha_sigma0 w1) % W32
  let t1 := (h + sha_bigSigma1 e + sha_Ch e f g + 0x27b70a85 + w0) % W32
  let t2 := (sha_bigSigma0 a + sha_Maj a b c) % W32
  let d := (d + t1) % W32
  let h := (t1 + t2) % W32
  let w1 := (w1 + sha_sigma1 w15 + w10 + sha_sigma0 w2) % W32
  let t1 := (g + sha_bigSigma1 d + sha_Ch d e f + 0x2e1b2138 + w1) % W32
  let t2 := (sha_bigSigma0 h + sha_Maj h a b) % W32
  let c := (c + t1) % W32
  let g := (t1 + t2) % W32
  let w2 := (w2 + sha_sigma1 w0 + w11 + sha_sigma0 w3) % W32
  let t1 := (f + sha_bigSigma1 c + sha_Ch c d e + 0x4d2c6dfc + w2) % W32
  let t2 := (sha_bigSigma0 g + sha_Maj g h a) % W32
  let b := (b + t1) % W32
  let f := (t1 + t2) % W32
  let w3 := (w3 + sha_sigma1 w1 + w12 + sha_sigma0 w4) % W32
  let t1 := (e + sha_bigSigma1 b + sha_Ch b c d + 0x53380d13 + w3) % W32
  let t2 := (sha_bigSigma0 f + sha_Maj f g h) % W32
  let a := (a + t1) % W32
  let e := (t1 + t2) % W32
  let w4 := (w4 + sha_sigma1 w2 + w13 + sha_sigma0 w5) % W32
  let t1 := (d + sha_bigSigma1 a + sha_Ch a b c + 0x650a7354 + w4) % W32
  let t2 := (sha_bigSigma0 e + sha_Maj e f g) % W32
  let h := (h + t1) % W32
  let d := (t1 + t2) % W32
  let w5 := (w5 + sha_sigma1 w3 + w14 + sha_sigma0 w6) % W32
  let t1 := (c + sha_bigSigma1 h + sha_Ch h a b + 0x766a0abb + w5) % W32
  let t2 := (sha_bigSigma0 d + sha_Maj d e f) % W32
  let g := (g + t1) % W32
  let c := (t1 + t2) % W32
  let w6 := (w6 + sha_sigma1 w4 + w15 + sha_sigma0 w7) % W32
  let t1 := (b + sha_bigSigma1 g + sha_Ch g h a + 0x81c2c92e + w6) % W32
  let t2 := (sha_bigSigma0 c + sha_Maj c d e) % W32
  let f := (f + t1) % W32
  let b := (t1 + t2) % W32
  let w7 := (w7 + sha_sigma1 w5 + w0 + sha_sigma0 w8) % W32
  let t1 := (a + sha_bigSigma1 f + sha_Ch f g h + 0x92722c85 + w7) % W32
  let t2 := (sha_bigSigma0 b + sha_Maj b c d) % W32
  let e := (e + t1) % W32
  let a := (t1 + t2) % W32
  let w8 := (w8 + sha_sigma1 w6 + w1 + sha_sigma0 w9) % W32
  let t1 := (h + sha_bigSigma1 e + sha_Ch e f g + 0xa2bfe8a1 + w8) % W32
  let t2 := (sha_bigSigma0 a + sha_Maj a b c) % W32
  let d := (d + t1) % W32
  let h := (t1 + t2) % W32
  let w9 := (w9 + sha_sigma1 w7 + w2 + sha_sigma0 w10) % W32
  let t1 := (g + sha_bigSigma1 d + sha_Ch d e f + 0xa81a664b + w9) % W32
  let t2 := (sha_bigSigma0 h + sha_Maj h a b) % W32
  let c := (c + t1) % W32
  let g := (t1 + t2) % W32
  let w10 := (w10 + sha_sigma1 w8 + w3 + sha_sigma0 w11) % W32
  let t1 := (f + sha_bigSigma1 c + sha_Ch c d e + 0xc24b8b70 + w10) % W32
  let t2 := (sha_bigSigma0 g + sha_Maj g h a) % W32
  let b := (b + t1) % W32
  let f := (t1 + t2) % W32
  let w11 := (w11 + sha_sigma1 w9 + w4 + sha_sigma0 w12) % W32
  let t1 := (e + sha_bigSigma1 b + sha_Ch b c d + 0xc76c51a3 + w11) % W32
  let t2 := (sha_bigSigma0 f + sha_Maj f g h) % W32
  let a := (a + t1) % W32
  let e := (t1 + t2) % W32
  let w12 := (w12 + sha_sigma1 w10 + w5 + sha_sigma0 w13) % W32
  let t1 := (d + sha_bigSigma1 a + sha_Ch a b c + 0xd192e819 + w12) % W32
  let t2 := (sha_bigSigma0 e + sha_Maj e f g) % W32
  let h := (h + t1) % W32
  let d := (t1 + t2) % W32
  let w13 := (w13 + sha_sigma1 w11 + w6 + sha_sigma0 w14) % W32
  let t1 := (c + sha_bigSigma1 h + sha_Ch h a b + 0xd6990624 + w13) % W32
  let t2 := (sha_bigSigma0 d + sha_Maj d e f) % W32
  let g := (g + t1) % W32
  let c := (t1 + t2) % W32
  let w14 := (w14 + sha_sigma1 w12 + w7 + sha_sigma0 w15) % W32
  let t1 := (b + sha_bigSigma1 g + sha_Ch g h a + 0xf40e3585 + w14) % W32
  let t2 := (sha_bigSigma0 c + sha_Maj c d e) % W32
  let f := (f + t1) % W32
  let b := (t1 + t2) % W32
  let w15 := (w15 + sha_sigma1 w13 + w8 + sha_sigma0 w0) % W32
  let t1 := (a + sha_bigSigma1 f + sha_Ch f g h + 0x106aa070 + w15) % W32
  let t2 := (sha_bigSigma0 b + sha_Maj b c d) % W32
  let e := (e + t1) % W32
  let a := (t1 + t2) % W32
  let w0 := (w0 + sha_sigma1 w14 + w9 + sha_sigma0 w1) % W32
  let t1 := (h + sha_bigSigma1 e + sha_Ch e f g + 0x19a4c116 + w0) % W32
  let t2 := (sha_bigSigma0 a + sha_Maj a b c) % W32
  let d := (d + t1) % W32
  let h := (t1 + t2) % W32
  let w1 := (w1 + sha_sigma1 w15 + w10 + sha_sigma0 w2) % W32
  let t1 := (g + sha_bigSigma1 d + sha_Ch d e f + 0x1e376c08 + w1) % W32
  let t2 := (sha_bigSigma0 h + sha_Maj h a b) % W32
  let c := (c + t1) % W32
  let g := (t1 + t2) % W32
  let w2 := (w2 + sha_sigma1 w0 + w11 + sha_sigma0 w3) % W32
  let t1 := (f + sha_bigSigma1 c + sha_Ch c d e + 0x2748774c + w2) % W32
  let t2 := (sha_bigSigma0 g + sha_Maj g h a) % W32
  let b := (b + t1) % W32
  let f := (t1 + t2) % W32
  let w3 := (w3 + sha_sigma1 w1 + w12 + sha_sigma0 w4) % W32
  let t1 := (e + sha_bigSigma1 b + sha_Ch b c d + 0x34b0bcb5 + w3) % W32
  let t2 := (sha_bigSigma0 f + sha_Maj f g h) % W32
  let a := (a + t1) % W32
  let e := (t1 + t2) % W32
  let w4 := (w4 + sha_sigma1 w2 + w13 + sha_sigma0 w5) % W32
  let t1 := (d + sha_bigSigma1 a + sha_Ch a b c + 0x391c0cb3 + w4) % W32
  let t2 := (sha_bigSigma0 e + sha_Maj e f g) % W32
  let h := (h + t1) % W32
  let d := (t1 + t2) % W32
  let w5 := (w5 + sha_sigma1 w3 + w14 + sha_sigma0 w6) % W32
  let t1 := (c + sha_bigSigma1 h + sha_Ch h a b + 0x4ed8aa4a + w5) % W32
  let t2 := (sha_bigSigma0 d + sha_Maj d e f) % W32
  let g := (g + t1) % W32
  let c := (t1 + t2) % W32
  let w6 := (w6 + sha_sigma1 w4 + w15 + sha_sigma0 w7) % W32
  let t1 := (b + sha_bigSigma1 g + sha_Ch g h a + 0x5b9cca4f + w6) % W32
  let t2 := (sha_bigSigma0 c + sha_Maj c d e) % W32
  let f := (f + t1) % W32
  let b := (t1 + t2) % W32
  let w7 := (w7 + sha_sigma1 w5 + w0 + sha_sigma0 w8) % W32
  let t1 := (a + sha_bigSigma1 f + sha_Ch f g h + 0x682e6ff3 + w7) % W32
  let t2 := (sha_bigSigma0 b + sha_Maj b c d) % W32
  let e := (e + t1) % W32
  let a := (t1 + t2) % W32
  let w8 := (w8 + sha_sigma1 w6 + w1 + sha_sigma0 w9) % W32
  let t1 := (h + sha_bigSigma1 e + sha_Ch e f g + 0x748f82ee + w8) % W32
  let t2 := (sha_bigSigma0 a + sha_Maj a b c) % W32
  let d := (d + t1) % W32
  let h := (t1 + t2) % W32
  let w9 := (w9 + sha_sigma1 w7 + w2 + sha_sigma0 w10) % W32
  let t1 := (g + sha_bigSigma1 d + sha_Ch d e f + 0x78a5636f + w9) % W32
  let t2 := (sha_bigSigma0 h + sha_Maj h a b) % W32
  let c := (c + t1) % W32
  let g := (t1 + t2) % W32
  let w10 := (w10 + sha_sigma1 w8 + w3 + sha_sigma0 w11) % W32
  let t1 := (f + sha_bigSigma1 c + sha_Ch c d e + 0x84c87814 + w10) % W32
  let t2 := (sha_bigSigma0 g + sha_Maj g h a) % W32
  let b := (b + t1) % W32
  let f := (t1 + t2) % W32
  let w11 := (w11 + sha_sigma1 w9 + w4 + sha_sigma0 w12) % W32
  let t1 := (e + sha_bigSigma1 b + sha_Ch b c d + 0x8cc70208 + w11) % W32
  let t2 := (sha_bigSigma0 f + sha_Maj f g h) % W32
  let a := (a + t1) % W32
  let e := (t1 + t2) % W32
  let w12 := (w12 + sha_sigma1 w10 + w5 + sha_sigma0 w13) % W32
  let t1 := (d + sha_bigSigma1 a + sha_Ch a b c + 0x90befffa + w12) % W32
  let t2 := (sha_bigSigma0 e + sha_Maj e f g) % W32
  let h := (h + t1) % W32
  let d := (t1 + t2) % W32
  let w13 := (w13 + sha_sigma1 w11 + w6 + sha_sigma0 w14) % W32
  let t1 := (c + sha_bigSigma1 h + sha_Ch h a b + 0xa4506ceb + w13) % W32
  let t2 := (sha_bigSigma0 d + sha_Maj d e f) % W32
  let g := (g + t1) % W32
  let c := (t1 + t2) % W32
  let w14 := (w14 + sha_sigma1 w12 + w7 + sha_sigma0 w15) % W32
  let t1 := (b + sha_bigSigma1 g + sha_Ch g h a + 0xbef9a3f7 + w14) % W32
  let t2 := (sha_bigSigma0 c + sha_Maj c d e) % W32
  let f := (f + t1) % W32
  let b := (t1 + t2) % W32
  let w15 := (w15 + sha_sigma1 w13 + w8 + sha_sigma0 w0) % W32
  let t1 := (a + sha_bigSigma1 f + sha_Ch f g h + 0xc67178f2 + w15) % W32
  let t2 := (sha_bigSigma0 b + sha_Maj b c d) % W32
  let e := (e + t1) % W32
  let a := (t1 + t2) % W32
  [(s.getD 0 0 + a) % W32, (s.getD 1 0 + b) % W32, (s.getD 2 0 + c) % W32,
   (s.getD 3 0 + d) % W32, (s.getD 4 0 + e) % W32, (s.getD 5 0 + f) % W32,
   (s.getD 6 0 + g) % W32, (s.getD 7 0 + h) % W32]

/-- Loop body of `secp256k1_sha256_write`: as long as the pending data fills
the 64-byte block, compress; the recursion is driven by a fuel counter that
strictly dominates the number of iterations (each iteration consumes at least
one byte of `data`), so with `fuel = data.length + 1` it is never exhausted. -/
def secp256k1_sha256_write_loop :
    Nat → List Nat → List Nat → Nat → List Nat → List Nat × List Nat
  | 0, s, buf, _, data => (s, buf ++ data)
  | fuel + 1, s, buf, bufsize, data =>
    if 64 - bufsize ≤ data.length then
      let chunk_len := 64 - bufsize
      let s := secp256k1_sha256_transform s (buf ++ data.take chunk_len)
      secp256k1_sha256_write_loop fuel s [] 0 (data.drop chunk_len)
    else
      (s, buf ++ data)

/-- `secp256k1_sha256_write`: absorb `data` into the hash state. -/
def secp256k1_sha256_write (hash : secp256k1_sha256) (data : List Nat) :
    secp256k1_sha256 :=
  let bufsize := hash.bytes % 64
  let r := secp256k1_sha256_write_loop (data.length + 1) hash.s hash.buf bufsize data
  { s := r.1, buf := r.2, bytes := hash.bytes + data.length }

/-- The static 64-byte padding block `{0x80, 0, ..., 0}`. -/
def sha_pad : List Nat := 0x80 :: List.replicate 63 0

/-- `secp256k1_sha256_finalize`: pad, append the bit-length, and produce the
32-byte big-endian digest. -/
def secp256k1_sha256_finalize (hash : secp256k1_sha256) : List Nat :=
  let sizedesc := secp256k1_write_be32 (hash.bytes >>> 29 % W32) ++
    secp256k1_write_be32 (hash.bytes <<< 3 % W32)
  let hash := secp256k1_sha256_write hash (sha_pad.take (1 + (119 - hash.bytes % 64) % 64))
  let hash := secp256k1_sha256_write hash sizedesc
  secp256k1_write_be32 (hash.s.getD 0 0) ++ secp256k1_write_be32 (hash.s.getD 1 0) ++
  secp256k1_write_be32 (hash.s.getD 2 0) ++ secp256k1_write_be32 (hash.s.getD 3 0) ++
  secp256k1_write_be32 (hash.s.getD 4 0) ++ secp256k1_write_be32 (hash.s.getD 5 0) ++
  secp256k1_write_be32 (hash.s.getD 6 0) ++ secp256k1_write_be32 (hash.s.getD 7 0)

/-- `secp256k1_sha256_initialize` (named `_start` here because of a naming
restriction of this development): the standard SHA-256 initial state. -/
def secp256k1_sha256_start : secp256k1_sha256 :=
  { s := [0x6a09e667, 0xbb67ae85, 0x3c6ef372, 0xa54ff53a,
          0x510e527f, 0x9b05688c, 0x1f83d9ab, 0x5be0cd19],
    buf := [], bytes := 0 }

/-- `secp256k1_sha256_initialize_tagged`: the BIP-340 tagged-hash start state
`SHA256(SHA256(tag) || SHA256(tag))`. -/
def secp256k1_sha256_initialize_tagged (tag : List Nat) : secp256k1_sha256 :=
  let hash := secp256k1_sha256_start
  let hash := secp256k1_sha256_write hash tag
  let buf := secp256k1_sha256_finalize hash
  let hash := secp256k1_sha256_start
  let hash := secp256k1_sha256_write hash buf
  secp256k1_sha256_write hash buf

/-! ## Scalars modulo the curve order -/

/-- `secp256k1_scalar`: four 64-bit little-endian limbs. -/
structure secp256k1_scalar where
  d0 : Nat
  d1 : Nat
  d2 : Nat
  d3 : Nat
deriving DecidableEq, Repr

/-- Limb 0 of the curve order `n`. -/
def SECP256K1_N_0 : Nat := 0xBFD25E8CD0364141

/-- Limb 1 of the curve order `n`. -/
def SECP256K1_N_1 : Nat := 0xBAAEDCE6AF48A03B

/-- Limb 2 of the curve order `n`. -/
def SECP256K1_N_2 : Nat := 0xFFFFFFFFFFFFFFFE

/-- Limb 3 of the curve order `n`. -/
def SECP256K1_N_3 : Nat := 0xFFFFFFFFFFFFFFFF

/-- `SECP256K1_N_C_0 = ~N_0 + 1` as a 64-bit word. -/
def SECP256K1_N_C_0 : Nat := W64 - SECP256K1_N_0

/-- `SECP256K1_N_C_1 = ~N_1` as a 64-bit word. -/
def SECP256K1_N_C_1 : Nat := W64 - 1 - SECP256K1_N_1

/-- `SECP256K1_N_C_2 = 1`. -/
def SECP256K1_N_C_2 : Nat := 1

/-- The curve order `n` as an integer. -/
def nOrder : Nat :=
  SECP256K1_N_0 + SECP256K1_N_1 * 2 ^ 64 + SECP256K1_N_2 * 2 ^ 128 + SECP256K1_N_3 * 2 ^ 192

/-- The integer value represented by a scalar's limbs. -/
def scalarVal (a : secp256k1_scalar) : Nat :=
  a.d0 + a.d1 * 2 ^ 64 + a.d2 * 2 ^ 128 + a.d3 * 2 ^ 192

/-- All four limbs are in 64-bit range. -/
def scalarLimbsOk (a : secp256k1_scalar) : Prop :=
  a.d0 < W64 ∧ a.d1 < W64 ∧ a.d2 < W64 ∧ a.d3 < W64

instance (a : secp256k1_scalar) : Decidable (scalarLimbsOk a) := by
  unfold scalarLimbsOk; infer_instance

/-- The all-one scalar `secp256k1_scalar_one`. -/
def secp256k1_scalar_one : secp256k1_scalar := ⟨1, 0, 0, 0⟩

/-- The zero scalar `secp256k1_scalar_zero`. -/
def secp256k1_scalar_zero : secp256k1_scalar := ⟨0, 0, 0, 0⟩

/-- `secp256k1_scalar_check_overflow`: limb-wise comparison against `n`
(the C code accumulates the `yes`/`no` flags with bitwise operations on
0/1-valued ints). -/
def secp256k1_scalar_check_overflow (a : secp256k1_scalar) : Bool :=
  let no := decide (a.d3 < SECP256K1_N_3)
  let no := no || decide (a.d2 < SECP256K1_N_2)
  let yes := decide (a.d2 > SECP256K1_N_2) && !no
  let no := no || decide (a.d1 < SECP256K1_N_1)
  let yes := yes || (decide (a.d1 > SECP256K1_N_1) && !no)
  yes || (decide (a.d0 ≥ SECP256K1_N_0) && !no)

/-- `secp256k1_scalar_reduce`: conditionally add `2^256 - n` (i.e. subtract
`n`), dropping the carry out of the top limb. -/
def secp256k1_scalar_reduce (r : secp256k1_scalar) (overflow : Nat) : secp256k1_scalar :=
  let t := secp256k1_u128_from_u64 r.d0
  let t := secp256k1_u128_accum_u64 t (overflow * SECP256K1_N_C_0 % W64)
  let d0 := secp256k1_u128_to_u64 t
  let t := secp256k1_u128_rshift t 64
  let t := secp256k1_u128_accum_u64 t r.d1
  let t := secp256k1_u128_accum_u64 t (overflow * SECP256K1_N_C_1 % W64)
  let d1 := secp256k1_u128_to_u64 t
  let t := secp256k1_u128_rshift t 64
  let t := secp256k1_u128_accum_u64 t r.d2
  let t := secp256k1_u128_accum_u64 t (overflow * SECP256K1_N_C_2 % W64)
  let d2 := secp256k1_u128_to_u64 t
  let t := secp256k1_u128_rshift t 64
  let t := secp256k1_u128_accum_u64 t r.d3
  let d3 := secp256k1_u128_to_u64 t
  ⟨d0, d1, d2, d3⟩

/-- `secp256k1_scalar_set_b32`: parse 32 big-endian bytes and reduce modulo
`n`; also returns the overflow flag. -/
def secp256k1_scalar_set_b32 (b32 : List Nat) : secp256k1_scalar × Nat :=
  let r : secp256k1_scalar :=
    ⟨secp256k1_read_be64 (b32.drop 24), secp256k1_read_be64 (b32.drop 16),
     secp256k1_read_be64 (b32.drop 8), secp256k1_read_be64 b32⟩
  let over : Nat := if secp256k1_scalar_check_overflow r then 1 else 0
  (secp256k1_scalar_reduce r over, over)

/-- `secp256k1_scalar_get_b32`: serialise a scalar as 32 big-endian bytes. -/
def secp256k1_scalar_get_b32 (a : secp256k1_scalar) : List Nat :=
  secp256k1_write_be64 a.d3 ++ secp256k1_write_be64 a.d2 ++
  secp256k1_write_be64 a.d1 ++ secp256k1_write_be64 a.d0

/-- `secp256k1_scalar_is_zero`. -/
def secp256k1_scalar_is_zero (a : secp256k1_scalar) : Bool :=
  decide ((a.d0 ||| a.d1 ||| a.d2 ||| a.d3) = 0)

/-- `secp256k1_scalar_negate`: compute `n - a` limb-wise (as `~a + (n+1)`)
and AND every limb with the mask `0xFF..FF * (a != 0)`, so that zero maps to
zero. -/
def secp256k1_scalar_negate (a : secp256k1_scalar) : secp256k1_scalar :=
  let nonzero := if secp256k1_scalar_is_zero a then 0 else W64 - 1
  let t := secp256k1_u128_from_u64 (W64 - 1 - a.d0 % W64)
  let t := secp256k1_u128_accum_u64 t (SECP256K1_N_0 + 1)
  let r0 := secp256k1_u128_to_u64 t &&& nonzero
  let t := secp256k1_u128_rshift t 64
  let t := secp256k1_u128_accum_u64 t (W64 - 1 - a.d1 % W64)
  let t := secp256k1_u128_accum_u64 t SECP256K1_N_1
  let r1 := secp256k1_u128_to_u64 t &&& nonzero
  let t := secp256k1_u128_rshift t 64
  let t := secp256k1_u128_accum_u64 t (W64 - 1 - a.d2 % W64)
  let t := secp256k1_u128_accum_u64 t SECP256K1_N_2
  let r2 := secp256k1_u128_to_u64 t &&& nonzero
  let t := secp256k1_u128_rshift t 64
  let t := secp256k1_u128_accum_u64 t (W64 - 1 - a.d3 % W64)
  let t := secp256k1_u128_accum_u64 t SECP256K1_N_3
  let r3 := secp256k1_u128_to_u64 t &&& nonzero
  ⟨r0, r1, r2, r3⟩

/-- `secp256k1_scalar_add`: limb-wise addition with carry, followed by a
conditional reduction; also returns the overflow bit. -/
def secp256k1_scalar_add (a b : secp256k1_scalar) : secp256k1_scalar × Nat :=
  let t := secp256k1_u128_from_u64 a.d0
  let t := secp256k1_u128_accum_u64 t b.d0
  let d0 := secp256k1_u128_to_u64 t
  let t := secp256k1_u128_rshift t 64
  let t := secp256k1_u128_accum_u64 t a.d1
  let t := secp256k1_u128_accum_u64 t b.d1
  let d1 := secp256k1_u128_to_u64 t
  let t := secp256k1_u128_rshift t 64
  let t := secp256k1_u128_accum_u64 t a.d2
  let t := secp256k1_u128_accum_u64 t b.d2
  let d2 := secp256k1_u128_to_u64 t
  let t := secp256k1_u128_rshift t 64
  let t := secp256k1_u128_accum_u64 t a.d3
  let t := secp256k1_u128_accum_u64 t b.d3
  let d3 := secp256k1_u128_to_u64 t
  let t := secp256k1_u128_rshift t 64
  let r : secp256k1_scalar := ⟨d0, d1, d2, d3⟩
  let overflow := secp256k1_u128_to_u64 t +
    (if secp256k1_scalar_check_overflow r then 1 else 0)
  (secp256k1_scalar_reduce r overflow, overflow)

/-- `secp256k1_scalar_clear`: explicit zeroisation. -/
def secp256k1_scalar_clear : secp256k1_scalar := ⟨0, 0, 0, 0⟩

/-- `secp256k1_scalar_set_b32_seckey`: parse and require no overflow and a
nonzero result. -/
def secp256k1_scalar_set_b32_seckey (bin : List Nat) : secp256k1_scalar × Bool :=
  let r := secp256k1_scalar_set_b32 bin
  (r.1, decide (r.2 = 0) && !secp256k1_scalar_is_zero r.1)

/-- `secp256k1_scalar_cmov`: `r := a` exactly when `flag` is set (the C code
selects limb-wise with the constant-time masks `flag - 1` and its
complement). -/
def secp256k1_scalar_cmov (r a : secp256k1_scalar) (flag : Bool) : secp256k1_scalar :=
  if flag then a else r

/-- Carry triple `(c0, c1, c2)` used by the scalar multiplication macros:
two 64-bit words and a 32-bit overflow counter. -/
structure carry3 where
  c0 : Nat
  c1 : Nat
  c2 : Nat
deriving DecidableEq, Repr

/-- The `muladd` macro: add `a*b` into the carry triple. -/
def sc_muladd (c : carry3) (a b : Nat) : carry3 :=
  let t := secp256k1_u128_mul a b
  let th := secp256k1_u128_hi_u64 t
  let tl := secp256k1_u128_to_u64 t
  let c0 := (c.c0 + tl) % W64
  let th := (th + if c0 < tl then 1 else 0) % W64
  let c1 := (c.c1 + th) % W64
  let c2 := (c.c2 + if c1 < th then 1 else 0) % W32
  ⟨c0, c1, c2⟩

/-- The `muladd_fast` macro: add `a*b`, promising no carry into `c2`. -/
def sc_muladd_fast (c : carry3) (a b : Nat) : carry3 :=
  let t := secp256k1_u128_mul a b
  let th := secp256k1_u128_hi_u64 t
  let tl := secp256k1_u128_to_u64 t
  let c0 := (c.c0 + tl) % W64
  let th := (th + if c0 < tl then 1 else 0) % W64
  let c1 := (c.c1 + th) % W64
  ⟨c0, c1, c.c2⟩

/-- The `sumadd` macro: add a 64-bit value into the carry triple. -/
def sc_sumadd (c : carry3) (a : Nat) : carry3 :=
  let c0 := (c.c0 + a) % W64
  let over : Nat := if c0 < a then 1 else 0
  let c1 := (c.c1 + over) % W64
  let c2 := (c.c2 + if c1 < over then 1 else 0) % W32
  ⟨c0, c1, c2⟩

/-- The `sumadd_fast` macro: add a 64-bit value, promising no carry into `c2`. -/
def sc_sumadd_fast (c : carry3) (a : Nat) : carry3 :=
  let c0 := (c.c0 + a) % W64
  let c1 := (c.c1 + if c0 < a then 1 else 0) % W64
  ⟨c0, c1, c.c2⟩

/-- The `extract` macro: shift the carry triple down one limb. -/
def sc_extract (c : carry3) : Nat × carry3 := (c.c0, ⟨c.c1, c.c2, 0⟩)

/-- The `extract_fast` macro: like `extract` with `c2` asserted to be zero. -/
def sc_extract_fast (c : carry3) : Nat × carry3 := (c.c0, ⟨c.c1, 0, c.c2⟩)

/-- `secp256k1_scalar_mul_512`: schoolbook 256x256 -> 512 bit product,
returned as eight 64-bit limbs `l[0..7]`. -/
def secp256k1_scalar_mul_512 (a b : secp256k1_scalar) : List Nat :=
  let c := sc_muladd_fast ⟨0, 0, 0⟩ a.d0 b.d0
  let e := sc_extract_fast c
  let l0 := e.1
  let c := sc_muladd e.2 a.d0 b.d1
  let c := sc_muladd c a.d1 b.d0
  let e := sc_extract c
  let l1 := e.1
  let c := sc_muladd e.2 a.d0 b.d2
  let c := sc_muladd c a.d1 b.d1
  let c := sc_muladd c a.d2 b.d0
  let e := sc_extract c
  let l2 := e.1
  let c := sc_muladd e.2 a.d0 b.d3
  let c := sc_muladd c a.d1 b.d2
  let c := sc_muladd c a.d2 b.d1
  let c := sc_muladd c a.d3 b.d0
  let e := sc_extract c
  let l3 := e.1
  let c := sc_muladd e.2 a.d1 b.d3
  let c := sc_muladd c a.d2 b.d2
  let c := sc_muladd c a.d3 b.d1
  let e := sc_extract c
  let l4 := e.1
  let c := sc_muladd e.2 a.d2 b.d3
  let c := sc_muladd c a.d3 b.d2
  let e := sc_extract c
  let l5 := e.1
  let c := sc_muladd_fast e.2 a.d3 b.d3
  let e := sc_extract_fast c
  let l6 := e.1
  let l7 := e.2.c0
  [l0, l1, l2, l3, l4, l5, l6, l7]

/-- `secp256k1_scalar_reduce_512`: reduce eight 64-bit limbs modulo `n`
(512 to 385 bits, then to 258 bits, then to 256 bits plus a final
conditional subtraction). -/
def secp256k1_scalar_reduce_512 (l : List Nat) : secp256k1_scalar :=
  let n0 := l.getD 4 0
  let n1 := l.getD 5 0
  let n2 := l.getD 6 0
  let n3 := l.getD 7 0
  let c := carry3.mk (l.getD 0 0) 0 0
  let c := sc_muladd_fast c n0 SECP256K1_N_C_0
  let e := sc_extract_fast c
  let m0 := e.1
  let c := sc_sumadd_fast e.2 (l.getD 1 0)
  let c := sc_muladd c n1 SECP256K1_N_C_0
  let c := sc_muladd c n0 SECP256K1_N_C_1
  let e := sc_extract c
  let m1 := e.1
  let c := sc_sumadd e.2 (l.getD 2 0)
  let c := sc_muladd c n2 SECP256K1_N_C_0
  let c := sc_muladd c n1 SECP256K1_N_C_1
  let c := sc_sumadd c n0
  let e := sc_extract c
  let m2 := e.1
  let c := sc_sumadd e.2 (l.getD 3 0)
  let c := sc_muladd c n3 SECP256K1_N_C_0
  let c := sc_muladd c n2 SECP256K1_N_C_1
  let c := sc_sumadd c n1
  let e := sc_extract c
  let m3 := e.1
  let c := sc_muladd e.2 n3 SECP256K1_N_C_1
  let c := sc_sumadd c n2
  let e := sc_extract c
  let m4 := e.1
  let c := sc_sumadd_fast e.2 n3
  let e := sc_extract_fast c
  let m5 := e.1
  let m6 := e.2.c0 % W32
  let c := carry3.mk m0 0 0
  let c := sc_muladd_fast c m4 SECP256K1_N_C_0
  let e := sc_extract_fast c
  let p0 := e.1
  let c := sc_sumadd_fast e.2 m1
  let c := sc_muladd c m5 SECP256K1_N_C_0
  let c := sc_muladd c m4 SECP256K1_N_C_1
  let e := sc_extract c
  let p1 := e.1
  let c := sc_sumadd e.2 m2
  let c := sc_muladd c m6 SECP256K1_N_C_0
  let c := sc_muladd c m5 SECP256K1_N_C_1
  let c := sc_sumadd c m4
  let e := sc_extract c
  let p2 := e.1
  let c := sc_sumadd_fast e.2 m3
  let c := sc_muladd_fast c m6 SECP256K1_N_C_1
  let c := sc_sumadd_fast c m5
  let e := sc_extract_fast c
  let p3 := e.1
  let p4 := (e.2.c0 + m6) % W32
  let c128 := secp256k1_u128_from_u64 p0
  let c128 := secp256k1_u128_accum_mul c128 SECP256K1_N_C_0 p4
  let d0 := secp256k1_u128_to_u64 c128
  let c128 := secp256k1_u128_rshift c128 64
  let c128 := secp256k1_u128_accum_u64 c128 p1
  let c128 := secp256k1_u128_accum_mul c128 SECP256K1_N_C_1 p4
  let d1 := secp256k1_u128_to_u64 c128
  let c128 := secp256k1_u128_rshift c128 64
  let c128 := secp256k1_u128_accum_u64 c128 p2
  let c128 := secp256k1_u128_accum_u64 c128 p4
  let d2 := secp256k1_u128_to_u64 c128
  let c128 := secp256k1_u128_rshift c128 64
  let c128 := secp256k1_u128_accum_u64 c128 p3
  let d3 := secp256k1_u128_to_u64 c128
  let cOut := secp256k1_u128_hi_u64 c128
  let r : secp256k1_scalar := ⟨d0, d1, d2, d3⟩
  secp256k1_scalar_reduce r
    (cOut + if secp256k1_scalar_check_overflow r then 1 else 0)

/-- `secp256k1_scalar_mul`. -/
def secp256k1_scalar_mul (a b : secp256k1_scalar) : secp256k1_scalar :=
  secp256k1_scalar_reduce_512 (secp256k1_scalar_mul_512 a b)

/-! ## Field elements modulo p (5 x 52-bit limbs) -/

/-- `secp256k1_fe`: five limbs, 52 significant bits each (48 in the top). -/
structure secp256k1_fe where
  n0 : Nat
  n1 : Nat
  n2 : Nat
  n3 : Nat
  n4 : Nat
deriving DecidableEq, Repr

/-- The field prime `p = 2^256 - 2^32 - 977`. -/
def pField : Nat := 2 ^ 256 - 2 ^ 32 - 977

/-- 52-bit limb mask `0xFFFFFFFFFFFFF`. -/
def M52 : Nat := 0xFFFFFFFFFFFFF

/-- 48-bit top-limb mask. -/
def M48 : Nat := 0xFFFFFFFFFFFF

/-- The integer value represented by a field element's limbs. -/
def feVal (a : secp256k1_fe) : Nat :=
  a.n0 + a.n1 * 2 ^ 52 + a.n2 * 2 ^ 104 + a.n3 * 2 ^ 156 + a.n4 * 2 ^ 208

/-- Input bound required by `secp256k1_fe_mul`/`secp256k1_fe_sqr` (the
`VERIFY_BITS` contract: 56 bits per limb, 52 on the top limb). -/
def feMulOk (a : secp256k1_fe) : Prop :=
  a.n0 < 2 ^ 56 ∧ a.n1 < 2 ^ 56 ∧ a.n2 < 2 ^ 56 ∧ a.n3 < 2 ^ 56 ∧ a.n4 < 2 ^ 52

instance (a : secp256k1_fe) : Decidable (feMulOk a) := by
  unfold feMulOk; infer_instance

/-- Magnitude-1 output bound produced by `secp256k1_fe_mul`/`secp256k1_fe_sqr`. -/
def feMag1 (a : secp256k1_fe) : Prop :=
  a.n0 < 2 ^ 52 ∧ a.n1 < 2 ^ 52 ∧ a.n2 < 2 ^ 52 ∧ a.n3 < 2 ^ 52 ∧ a.n4 < 2 ^ 49

instance (a : secp256k1_fe) : Decidable (feMag1 a) := by
  unfold feMag1; infer_instance

/-- 64-bit unsigned subtraction `x - y` (two's complement wrap-around). -/
def usub64 (x y : Nat) : Nat := (x + (W64 - y % W64)) % W64

/-- `secp256k1_fe_clear`. -/
def secp256k1_fe_clear : secp256k1_fe := ⟨0, 0, 0, 0, 0⟩

/-- `secp256k1_fe_set_int`. -/
def secp256k1_fe_set_int (a : Nat) : secp256k1_fe := ⟨a, 0, 0, 0, 0⟩

/-- `secp256k1_fe_is_zero`. -/
def secp256k1_fe_is_zero (a : secp256k1_fe) : Bool :=
  decide ((a.n0 ||| a.n1 ||| a.n2 ||| a.n3 ||| a.n4) = 0)

/-- `secp256k1_fe_is_odd`. -/
def secp256k1_fe_is_odd (a : secp256k1_fe) : Bool := decide (a.n0 &&& 1 = 1)

/-- `secp256k1_fe_normalize_var`: fold the top-limb excess back via
`2^256 = 2^32 + 977 (mod p)`, propagate carries, and conditionally perform a
second pass for values in `[p, 2^256)`. -/
def secp256k1_fe_normalize_var (r : secp256k1_fe) : secp256k1_fe :=
  let t0 := r.n0
  let t1 := r.n1
  let t2 := r.n2
  let t3 := r.n3
  let t4 := r.n4
  let x := t4 >>> 48
  let t4 := t4 &&& M48
  let t0 := (t0 + x * 0x1000003D1) % W64
  let t1 := (t1 + (t0 >>> 52)) % W64
  let t0 := t0 &&& M52
  let m := t1
  let t2 := (t2 + (t1 >>> 52)) % W64
  let t1 := t1 &&& M52
  let m := m &&& t2
  let t3 := (t3 + (t2 >>> 52)) % W64
  let t2 := t2 &&& M52
  let m := m &&& t3
  let t4 := (t4 + (t3 >>> 52)) % W64
  let t3 := t3 &&& M52
  let m := m &&& t4
  let x := t4 >>> 48 |||
    (if t4 = 0x0FFFFFFFFFFFF ∧ m = 0xFFFFFFFFFFFFF ∧ t0 ≥ 0xFFFFEFFFFFC2F then 1 else 0)
  if x ≠ 0 then
    let t0 := (t0 + 0x1000003D1) % W64
    let t1 := (t1 + (t0 >>> 52)) % W64
    let t0 := t0 &&& M52
    let t2 := (t2 + (t1 >>> 52)) % W64
    let t1 := t1 &&& M52
    let t3 := (t3 + (t2 >>> 52)) % W64
    let t2 := t2 &&& M52
    let t4 := (t4 + (t3 >>> 52)) % W64
    let t3 := t3 &&& M52
    let t4 := t4 &&& M48
    ⟨t0, t1, t2, t3, t4⟩
  else
    ⟨t0, t1, t2, t3, t4⟩

/-- `secp256k1_fe_normalize_weak`: a single folding and carry pass. -/
def secp256k1_fe_normalize_weak (r : secp256k1_fe) : secp256k1_fe :=
  let t0 := r.n0
  let t1 := r.n1
  let t2 := r.n2
  let t3 := r.n3
  let t4 := r.n4
  let x := t4 >>> 48
  let t4 := t4 &&& M48
  let t0 := (t0 + x * 0x1000003D1) % W64
  let t1 := (t1 + (t0 >>> 52)) % W64
  let t0 := t0 &&& M52
  let t2 := (t2 + (t1 >>> 52)) % W64
  let t1 := t1 &&& M52
  let t3 := (t3 + (t2 >>> 52)) % W64
  let t2 := t2 &&& M52
  let t4 := (t4 + (t3 >>> 52)) % W64
  let t3 := t3 &&& M52
  ⟨t0, t1, t2, t3, t4⟩

/-- `secp256k1_fe_normalizes_to_zero`: detect whether a weakly-reducible
value is congruent to zero, by checking the folded limbs against the all-zero
and the `p` patterns. -/
def secp256k1_fe_normalizes_to_zero (r : secp256k1_fe) : Bool :=
  let t0 := r.n0
  let t1 := r.n1
  let t2 := r.n2
  let t3 := r.n3
  let t4 := r.n4
  let x := t4 >>> 48
  let t4 := t4 &&& M48
  let t0 := (t0 + x * 0x1000003D1) % W64
  let t1 := (t1 + (t0 >>> 52)) % W64
  let t0 := t0 &&& M52
  let z0 := t0
  let z1 := t0 ^^^ 0x1000003D0
  let t2 := (t2 + (t1 >>> 52)) % W64
  let t1 := t1 &&& M52
  let z0 := z0 ||| t1
  let z1 := z1 &&& t1
  let t3 := (t3 + (t2 >>> 52)) % W64
  let t2 := t2 &&& M52
  let z0 := z0 ||| t2
  let z1 := z1 &&& t2
  let t4 := (t4 + (t3 >>> 52)) % W64
  let t3 := t3 &&& M52
  let z0 := z0 ||| t3
  let z1 := z1 &&& t3
  let z0 := z0 ||| t4
  let z1 := z1 &&& (t4 ^^^ 0xF000000000000)
  decide (z0 = 0) || decide (z1 = 0xFFFFFFFFFFFFF)

/-- `secp256k1_fe_negate` (via `secp256k1_fe_negate_unchecked`): subtract
each limb from `2*(m+1)` times the corresponding limb of `p`. -/
def secp256k1_fe_negate (a : secp256k1_fe) (m : Nat) : secp256k1_fe :=
  ⟨usub64 (0xFFFFEFFFFFC2F * 2 * (m + 1)) a.n0,
   usub64 (0xFFFFFFFFFFFFF * 2 * (m + 1)) a.n1,
   usub64 (0xFFFFFFFFFFFFF * 2 * (m + 1)) a.n2,
   usub64 (0xFFFFFFFFFFFFF * 2 * (m + 1)) a.n3,
   usub64 (0x0FFFFFFFFFFFF * 2 * (m + 1)) a.n4⟩

/-- `secp256k1_fe_add`: limb-wise addition (lazy, no carry propagation). -/
def secp256k1_fe_add (r a : secp256k1_fe) : secp256k1_fe :=
  ⟨(r.n0 + a.n0) % W64, (r.n1 + a.n1) % W64, (r.n2 + a.n2) % W64,
   (r.n3 + a.n3) % W64, (r.n4 + a.n4) % W64⟩

/-- `secp256k1_fe_add_int`: add a small integer into the low limb. -/
def secp256k1_fe_add_int (r : secp256k1_fe) (a : Nat) : secp256k1_fe :=
  { r with n0 := (r.n0 + a) % W64 }

/-- `secp256k1_fe_equal`: `a = b` iff `(-a) + b` normalises to zero. -/
def secp256k1_fe_equal (a b : secp256k1_fe) : Bool :=
  secp256k1_fe_normalizes_to_zero (secp256k1_fe_add (secp256k1_fe_negate a 1) b)

/-- `secp256k1_fe_set_b32_mod`: unpack 32 big-endian bytes into 52-bit limbs. -/
def secp256k1_fe_set_b32_mod (a : List Nat) : secp256k1_fe :=
  ⟨a.getD 31 0 ||| a.getD 30 0 <<< 8 ||| a.getD 29 0 <<< 16 ||| a.getD 28 0 <<< 24 |||
     a.getD 27 0 <<< 32 ||| a.getD 26 0 <<< 40 ||| (a.getD 25 0 &&& 0xF) <<< 48,
   (a.getD 25 0 >>> 4 &&& 0xF) ||| a.getD 24 0 <<< 4 ||| a.getD 23 0 <<< 12 |||
     a.getD 22 0 <<< 20 ||| a.getD 21 0 <<< 28 ||| a.getD 20 0 <<< 36 ||| a.getD 19 0 <<< 44,
   a.getD 18 0 ||| a.getD 17 0 <<< 8 ||| a.getD 16 0 <<< 16 ||| a.getD 15 0 <<< 24 |||
     a.getD 14 0 <<< 32 ||| a.getD 13 0 <<< 40 ||| (a.getD 12 0 &&& 0xF) <<< 48,
   (a.getD 12 0 >>> 4 &&& 0xF) ||| a.getD 11 0 <<< 4 ||| a.getD 10 0 <<< 12 |||
     a.getD 9 0 <<< 20 ||| a.getD 8 0 <<< 28 ||| a.getD 7 0 <<< 36 ||| a.getD 6 0 <<< 44,
   a.getD 5 0 ||| a.getD 4 0 <<< 8 ||| a.getD 3 0 <<< 16 ||| a.getD 2 0 <<< 24 |||
     a.getD 1 0 <<< 32 ||| a.getD 0 0 <<< 40⟩

/-- `secp256k1_fe_set_b32_limit`: unpack and report whether the value was
below `p` (the failure pattern is exactly the limb pattern of values `>= p`). -/
def secp256k1_fe_set_b32_limit (a : List Nat) : secp256k1_fe × Bool :=
  let r := secp256k1_fe_set_b32_mod a
  (r, !(decide (r.n4 = 0x0FFFFFFFFFFFF) &&
        decide ((r.n3 &&& r.n2 &&& r.n1) = 0xFFFFFFFFFFFFF) &&
        decide (r.n0 ≥ 0xFFFFEFFFFFC2F)))

/-- `secp256k1_fe_get_b32`: serialise a (normalised) field element as 32
big-endian bytes. -/
def secp256k1_fe_get_b32 (a : secp256k1_fe) : List Nat :=
  [a.n4 >>> 40 &&& 0xFF, a.n4 >>> 32 &&& 0xFF, a.n4 >>> 24 &&& 0xFF, a.n4 >>> 16 &&& 0xFF,
   a.n4 >>> 8 &&& 0xFF, a.n4 &&& 0xFF,
   a.n3 >>> 44 &&& 0xFF, a.n3 >>> 36 &&& 0xFF, a.n3 >>> 28 &&& 0xFF, a.n3 >>> 20 &&& 0xFF,
   a.n3 >>> 12 &&& 0xFF, a.n3 >>> 4 &&& 0xFF,
   (a.n2 >>> 48 &&& 0xF) ||| (a.n3 &&& 0xF) <<< 4,
   a.n2 >>> 40 &&& 0xFF, a.n2 >>> 32 &&& 0xFF, a.n2 >>> 24 &&& 0xFF, a.n2 >>> 16 &&& 0xFF,
   a.n2 >>> 8 &&& 0xFF, a.n2 &&& 0xFF,
   a.n1 >>> 44 &&& 0xFF, a.n1 >>> 36 &&& 0xFF, a.n1 >>> 28 &&& 0xFF, a.n1 >>> 20 &&& 0xFF,
   a.n1 >>> 12 &&& 0xFF, a.n1 >>> 4 &&& 0xFF,
   (a.n0 >>> 48 &&& 0xF) ||| (a.n1 &&& 0xF) <<< 4,
   a.n0 >>> 40 &&& 0xFF, a.n0 >>> 32 &&& 0xFF, a.n0 >>> 24 &&& 0xFF, a.n0 >>> 16 &&& 0xFF,
   a.n0 >>> 8 &&& 0xFF, a.n0 &&& 0xFF]

/-- The folding constant `R = 0x1000003D10` (`2^260 = R (mod p)` scaled to
limb position 0). -/
def feR : Nat := 0x1000003D10

/-- `secp256k1_fe_mul`: 5x52-limb schoolbook multiplication interleaved with
folding of high limbs through `R`, following the source step by step. -/
def secp256k1_fe_mul (a b : secp256k1_fe) : secp256k1_fe :=
  let d := secp256k1_u128_mul a.n0 b.n3
  let d := secp256k1_u128_accum_mul d a.n1 b.n2
  let d := secp256k1_u128_accum_mul d a.n2 b.n1
  let d := secp256k1_u128_accum_mul d a.n3 b.n0
  let c := secp256k1_u128_mul a.n4 b.n4
  let d := secp256k1_u128_accum_mul d feR (secp256k1_u128_to_u64 c)
  let c := secp256k1_u128_rshift c 64
  let t3 := secp256k1_u128_to_u64 d &&& M52
  let d := secp256k1_u128_rshift d 52
  let d := secp256k1_u128_accum_mul d a.n0 b.n4
  let d := secp256k1_u128_accum_mul d a.n1 b.n3
  let d := secp256k1_u128_accum_mul d a.n2 b.n2
  let d := secp256k1_u128_accum_mul d a.n3 b.n1
  let d := secp256k1_u128_accum_mul d a.n4 b.n0
  let d := secp256k1_u128_accum_mul d (feR <<< 12) (secp256k1_u128_to_u64 c)
  let t4 := secp256k1_u128_to_u64 d &&& M52
  let d := secp256k1_u128_rshift d 52
  let tx := t4 >>> 48
  let t4 := t4 &&& (M52 >>> 4)
  let c := secp256k1_u128_mul a.n0 b.n0
  let d := secp256k1_u128_accum_mul d a.n1 b.n4
  let d := secp256k1_u128_accum_mul d a.n2 b.n3
  let d := secp256k1_u128_accum_mul d a.n3 b.n2
  let d := secp256k1_u128_accum_mul d a.n4 b.n1
  let u0 := secp256k1_u128_to_u64 d &&& M52
  let d := secp256k1_u128_rshift d 52
  let u0 := u0 <<< 4 ||| tx
  let c := secp256k1_u128_accum_mul c u0 (feR >>> 4)
  let r0 := secp256k1_u128_to_u64 c &&& M52
  let c := secp256k1_u128_rshift c 52
  let c := secp256k1_u128_accum_mul c a.n0 b.n1
  let c := secp256k1_u128_accum_mul c a.n1 b.n0
  let d := secp256k1_u128_accum_mul d a.n2 b.n4
  let d := secp256k1_u128_accum_mul d a.n3 b.n3
  let d := secp256k1_u128_accum_mul d a.n4 b.n2
  let c := secp256k1_u128_accum_mul c (secp256k1_u128_to_u64 d &&& M52) feR
  let d := secp256k1_u128_rshift d 52
  let r1 := secp256k1_u128_to_u64 c &&& M52
  let c := secp256k1_u128_rshift c 52
  let c := secp256k1_u128_accum_mul c a.n0 b.n2
  let c := secp256k1_u128_accum_mul c a.n1 b.n1
  let c := secp256k1_u128_accum_mul c a.n2 b.n0
  let d := secp256k1_u128_accum_mul d a.n3 b.n4
  let d := secp256k1_u128_accum_mul d a.n4 b.n3
  let c := secp256k1_u128_accum_mul c feR (secp256k1_u128_to_u64 d)
  let d := secp256k1_u128_rshift d 64
  let r2 := secp256k1_u128_to_u64 c &&& M52
  let c := secp256k1_u128_rshift c 52
  let c := secp256k1_u128_accum_mul c (feR <<< 12) (secp256k1_u128_to_u64 d)
  let c := secp256k1_u128_accum_u64 c t3
  let r3 := secp256k1_u128_to_u64 c &&& M52
  let c := secp256k1_u128_rshift c 52
  let r4 := (secp256k1_u128_to_u64 c + t4) % W64
  ⟨r0, r1, r2, r3, r4⟩

/-- `secp256k1_fe_sqr`: squaring, the same folding structure as
`secp256k1_fe_mul` with the symmetric products doubled. -/
def secp256k1_fe_sqr (a : secp256k1_fe) : secp256k1_fe :=
  let a0 := a.n0
  let a1 := a.n1
  let a2 := a.n2
  let a3 := a.n3
  let a4 := a.n4
  let d := secp256k1_u128_mul (a0 * 2 % W64) a3
  let d := secp256k1_u128_accum_mul d (a1 * 2 % W64) a2
  let c := secp256k1_u128_mul a4 a4
  let d := secp256k1_u128_accum_mul d feR (secp256k1_u128_to_u64 c)
  let c := secp256k1_u128_rshift c 64
  let t3 := secp256k1_u128_to_u64 d &&& M52
  let d := secp256k1_u128_rshift d 52
  let a4 := a4 * 2 % W64
  let d := secp256k1_u128_accum_mul d a0 a4
  let d := secp256k1_u128_accum_mul d (a1 * 2 % W64) a3
  let d := secp256k1_u128_accum_mul d a2 a2
  let d := secp256k1_u128_accum_mul d (feR <<< 12) (secp256k1_u128_to_u64 c)
  let t4 := secp256k1_u128_to_u64 d &&& M52
  let d := secp256k1_u128_rshift d 52
  let tx := t4 >>> 48
  let t4 := t4 &&& (M52 >>> 4)
  let c := secp256k1_u128_mul a0 a0
  let d := secp256k1_u128_accum_mul d a1 a4
  let d := secp256k1_u128_accum_mul d (a2 * 2 % W64) a3
  let u0 := secp256k1_u128_to_u64 d &&& M52
  let d := secp256k1_u128_rshift d 52
  let u0 := u0 <<< 4 ||| tx
  let c := secp256k1_u128_accum_mul c u0 (feR >>> 4)
  let r0 := secp256k1_u128_to_u64 c &&& M52
  let c := secp256k1_u128_rshift c 52
  let a0 := a0 * 2 % W64
  let c := secp256k1_u128_accum_mul c a0 a1
  let d := secp256k1_u128_accum_mul d a2 a4
  let d := secp256k1_u128_accum_mul d a3 a3
  let c := secp256k1_u128_accum_mul c (secp256k1_u128_to_u64 d &&& M52) feR
  let d := secp256k1_u128_rshift d 52
  let r1 := secp256k1_u128_to_u64 c &&& M52
  let c := secp256k1_u128_rshift c 52
  let c := secp256k1_u128_accum_mul c a0 a2
  let c := secp256k1_u128_accum_mul c a1 a1
  let d := secp256k1_u128_accum_mul d a3 a4
  let c := secp256k1_u128_accum_mul c feR (secp256k1_u128_to_u64 d)
  let d := secp256k1_u128_rshift d 64
  let r2 := secp256k1_u128_to_u64 c &&& M52
  let c := secp256k1_u128_rshift c 52
  let c := secp256k1_u128_accum_mul c (feR <<< 12) (secp256k1_u128_to_u64 d)
  let c := secp256k1_u128_accum_u64 c t3
  let r3 := secp256k1_u128_to_u64 c &&& M52
  let c := secp256k1_u128_rshift c 52
  let r4 := (secp256k1_u128_to_u64 c + t4) % W64
  ⟨r0, r1, r2, r3, r4⟩

/-- Repeated `secp256k1_fe_sqr` (the `for` loops of the addition chains). -/
def secp256k1_fe_sqr_iter : Nat → secp256k1_fe → secp256k1_fe
  | 0, x => x
  | j + 1, x => secp256k1_fe_sqr_iter j (secp256k1_fe_sqr x)

/-- `secp256k1_fe_sqrt`: raise to `(p+1)/4` through the fixed addition chain
and report whether the square of the result gives back the input. -/
def secp256k1_fe_sqrt (a : secp256k1_fe) : Bool × secp256k1_fe :=
  let x2 := secp256k1_fe_mul (secp256k1_fe_sqr a) a
  let x3 := secp256k1_fe_mul (secp256k1_fe_sqr x2) a
  let x6 := secp256k1_fe_mul (secp256k1_fe_sqr_iter 3 x3) x3
  let x9 := secp256k1_fe_mul (secp256k1_fe_sqr_iter 3 x6) x3
  let x11 := secp256k1_fe_mul (secp256k1_fe_sqr_iter 2 x9) x2
  let x22 := secp256k1_fe_mul (secp256k1_fe_sqr_iter 11 x11) x11
  let x44 := secp256k1_fe_mul (secp256k1_fe_sqr_iter 22 x22) x22
  let x88 := secp256k1_fe_mul (secp256k1_fe_sqr_iter 44 x44) x44
  let x176 := secp256k1_fe_mul (secp256k1_fe_sqr_iter 88 x88) x88
  let x220 := secp256k1_fe_mul (secp256k1_fe_sqr_iter 44 x176) x44
  let x223 := secp256k1_fe_mul (secp256k1_fe_sqr_iter 3 x220) x3
  let t1 := secp256k1_fe_mul (secp256k1_fe_sqr_iter 23 x223) x22
  let t1 := secp256k1_fe_mul (secp256k1_fe_sqr_iter 6 t1) x2
  let t1 := secp256k1_fe_sqr t1
  let r := secp256k1_fe_sqr t1
  let t1 := secp256k1_fe_sqr r
  (secp256k1_fe_equal t1 a, r)

/-- `secp256k1_fe_inv_var`: raise to `p - 2` through the fixed addition
chain, then normalise. -/
def secp256k1_fe_inv_var (x : secp256k1_fe) : secp256k1_fe :=
  let x2 := secp256k1_fe_sqr x
  let x3 := secp256k1_fe_mul x2 x
  let x6 := secp256k1_fe_mul (secp256k1_fe_sqr_iter 3 x3) x3
  let x9 := secp256k1_fe_mul (secp256k1_fe_sqr_iter 3 x6) x3
  let x11 := secp256k1_fe_mul (secp256k1_fe_sqr_iter 2 x9) x2
  let x22 := secp256k1_fe_mul (secp256k1_fe_sqr_iter 11 x11) x11
  let x44 := secp256k1_fe_mul (secp256k1_fe_sqr_iter 22 x22) x22
  let x88 := secp256k1_fe_mul (secp256k1_fe_sqr_iter 44 x44) x44
  let x176 := secp256k1_fe_mul (secp256k1_fe_sqr_iter 88 x88) x88
  let x220 := secp256k1_fe_mul (secp256k1_fe_sqr_iter 44 x176) x44
  let x223 := secp256k1_fe_mul (secp256k1_fe_sqr_iter 3 x220) x3
  let t1 := secp256k1_fe_mul (secp256k1_fe_sqr_iter 23 x223) x22
  let t1 := secp256k1_fe_mul (secp256k1_fe_sqr_iter 5 t1) x
  let t1 := secp256k1_fe_mul (secp256k1_fe_sqr_iter 3 t1) x2
  let t1 := secp256k1_fe_mul (secp256k1_fe_sqr_iter 2 t1) x
  secp256k1_fe_normalize_var t1

/-! ## Group elements -/

/-- Curve constant `B = 7`. -/
def SECP256K1_B : Nat := 7

/-- `secp256k1_ge`: affine point with infinity flag. -/
structure secp256k1_ge where
  x : secp256k1_fe
  y : secp256k1_fe
  infinity : Bool
deriving DecidableEq, Repr

/-- `secp256k1_gej`: Jacobian point with infinity flag. -/
structure secp256k1_gej where
  x : secp256k1_fe
  y : secp256k1_fe
  z : secp256k1_fe
  infinity : Bool
deriving DecidableEq, Repr

/-- `secp256k1_ge_storage`: four packed 64-bit words. -/
structure secp256k1_ge_storage where
  n0 : Nat
  n1 : Nat
  n2 : Nat
  n3 : Nat
deriving DecidableEq, Repr

/-- `secp256k1_ge_set_infinity`. -/
def secp256k1_ge_set_infinity : secp256k1_ge :=
  ⟨secp256k1_fe_set_int 0, secp256k1_fe_set_int 0, true⟩

/-- `secp256k1_ge_is_infinity`. -/
def secp256k1_ge_is_infinity (a : secp256k1_ge) : Bool := a.infinity

/-- `secp256k1_ge_set_xy`. -/
def secp256k1_ge_set_xy (x y : secp256k1_fe) : secp256k1_ge := ⟨x, y, false⟩

/-- `secp256k1_ge_set_xo_var`: x-only decode.  Compute `x^3 + 7`, take its
square root, then match the parity of `y` to the requested bit. -/
def secp256k1_ge_set_xo_var (x : secp256k1_fe) (odd : Bool) : Bool × secp256k1_ge :=
  let x2 := secp256k1_fe_sqr x
  let x3 := secp256k1_fe_mul x x2
  let x3 := secp256k1_fe_add_int x3 SECP256K1_B
  let s := secp256k1_fe_sqrt x3
  let y := secp256k1_fe_normalize_var s.2
  let y := if secp256k1_fe_is_odd y ≠ odd then secp256k1_fe_negate y 1 else y
  (s.1, ⟨x, y, false⟩)

/-- `secp256k1_gej_set_infinity`. -/
def secp256k1_gej_set_infinity : secp256k1_gej :=
  ⟨secp256k1_fe_set_int 0, secp256k1_fe_set_int 0, secp256k1_fe_set_int 0, true⟩

/-- `secp256k1_gej_is_infinity`. -/
def secp256k1_gej_is_infinity (a : secp256k1_gej) : Bool := a.infinity

/-- `secp256k1_gej_set_ge`: affine to Jacobian with `z = 1`. -/
def secp256k1_gej_set_ge (a : secp256k1_ge) : secp256k1_gej :=
  ⟨a.x, a.y, secp256k1_fe_set_int 1, a.infinity⟩

/-- `secp256k1_ge_set_gej`: Jacobian to affine through one field inversion
(no infinity shortcut; the infinity flag is copied). -/
def secp256k1_ge_set_gej (a : secp256k1_gej) : secp256k1_ge :=
  let z := secp256k1_fe_inv_var a.z
  let z2 := secp256k1_fe_sqr z
  let z3 := secp256k1_fe_mul z z2
  ⟨secp256k1_fe_mul a.x z2, secp256k1_fe_mul a.y z3, a.infinity⟩

/-- `secp256k1_ge_set_gej_var`: like `secp256k1_ge_set_gej` with an explicit
infinity shortcut. -/
def secp256k1_ge_set_gej_var (a : secp256k1_gej) : secp256k1_ge :=
  if secp256k1_gej_is_infinity a then secp256k1_ge_set_infinity
  else
    let z := secp256k1_fe_inv_var a.z
    let z2 := secp256k1_fe_sqr z
    let z3 := secp256k1_fe_mul z z2
    secp256k1_ge_set_xy (secp256k1_fe_mul a.x z2) (secp256k1_fe_mul a.y z3)

/-- `secp256k1_ge_to_storage`: weak-normalise and pack the coordinates into
four 64-bit words (the shifts wrap modulo `2^64` as in the source). -/
def secp256k1_ge_to_storage (a : secp256k1_ge) : secp256k1_ge_storage :=
  let x := secp256k1_fe_normalize_weak a.x
  let y := secp256k1_fe_normalize_weak a.y
  ⟨x.n0 ||| x.n1 <<< 52 % W64,
   x.n2 ||| x.n3 <<< 40 % W64 ||| x.n4 <<< 56 % W64,
   y.n0 ||| y.n1 <<< 52 % W64,
   y.n2 ||| y.n3 <<< 40 % W64 ||| y.n4 <<< 56 % W64⟩

/-- `secp256k1_ge_from_storage`: unpack four 64-bit words into coordinates. -/
def secp256k1_ge_from_storage (a : secp256k1_ge_storage) : secp256k1_ge :=
  secp256k1_ge_set_xy
    ⟨a.n0 &&& M52, a.n0 >>> 52, a.n1 &&& M52, a.n1 >>> 40 &&& M52, a.n1 >>> 56⟩
    ⟨a.n2 &&& M52, a.n2 >>> 52, a.n3 &&& M52, a.n3 >>> 40 &&& M52, a.n3 >>> 56⟩

/-- Little-endian byte serialisation of a 64-bit word (the source stores the
`secp256k1_ge_storage` words with `memcpy` on a little-endian host). -/
def le64_bytes (x : Nat) : List Nat :=
  [x % 256, x >>> 8 % 256, x >>> 16 % 256, x >>> 24 % 256,
   x >>> 32 % 256, x >>> 40 % 256, x >>> 48 % 256, x >>> 56 % 256]

/-- Little-endian read of a 64-bit word. -/
def read_le64 (p : List Nat) : Nat :=
  p.getD 0 0 ||| p.getD 1 0 <<< 8 ||| p.getD 2 0 <<< 16 ||| p.getD 3 0 <<< 24 |||
  p.getD 4 0 <<< 32 ||| p.getD 5 0 <<< 40 ||| p.getD 6 0 <<< 48 ||| p.getD 7 0 <<< 56

/-- `secp256k1_ge_to_bytes`: `memcpy` of the storage form. -/
def secp256k1_ge_to_bytes (a : secp256k1_ge) : List Nat :=
  let s := secp256k1_ge_to_storage a
  le64_bytes s.n0 ++ le64_bytes s.n1 ++ le64_bytes s.n2 ++ le64_bytes s.n3

/-- `secp256k1_ge_from_bytes`: `memcpy` back into the storage form. -/
def secp256k1_ge_from_bytes (buf : List Nat) : secp256k1_ge :=
  secp256k1_ge_from_storage
    ⟨read_le64 buf, read_le64 (buf.drop 8), read_le64 (buf.drop 16), read_le64 (buf.drop 24)⟩

/-- The in-file generator constant `secp256k1_ge_const_g`: the
`SECP256K1_GE_CONST` macro of this source packs its sixteen 32-bit arguments
pairwise into the five `x` limbs and the first three `y` limbs. -/
def secp256k1_ge_const_g : secp256k1_ge :=
  ⟨⟨0x79be667e <<< 32 ||| 0xf9dcbbac, 0x55a06295 <<< 32 ||| 0xce870b07,
    0x029bfcdb <<< 32 ||| 0x2dce28d9, 0x59f2815b <<< 32 ||| 0x16f81798,
    0x483ada77 <<< 32 ||| 0x26a3c465⟩,
   ⟨0x5da4fbfc <<< 32 ||| 0x0e1108a8, 0xfd17b448 <<< 32 ||| 0xa6855419,
    0x9c47d08f <<< 32 ||| 0xfb10d4b8, 0, 0⟩,
   false⟩

/-! ## Pubkey and keypair loading -/

/-- `secp256k1_pubkey_load`: decode the 64-byte opaque form; the only
validation is `ARG_CHECK(x != 0)`. -/
def secp256k1_pubkey_load (pubkey : List Nat) : Bool × secp256k1_ge :=
  let ge := secp256k1_ge_from_bytes pubkey
  (!secp256k1_fe_is_zero ge.x, ge)

/-- `secp256k1_xonly_pubkey_load`: identical to `secp256k1_pubkey_load`. -/
def secp256k1_xonly_pubkey_load (pubkey : List Nat) : Bool × secp256k1_ge :=
  secp256k1_pubkey_load pubkey

/-- `secp256k1_keypair_load`: load the public key (and, when `with_sk` is
set, the secret scalar) from the 96-byte keypair; on failure the outputs are
overwritten with the dummy values `secp256k1_ge_const_g` and scalar `1`. -/
def secp256k1_keypair_load (with_sk : Bool) (keypair : List Nat) :
    Bool × secp256k1_ge × secp256k1_scalar :=
  let pl := secp256k1_pubkey_load (keypair.drop 32)
  let skp := secp256k1_scalar_set_b32_seckey (keypair.take 32)
  let ret := pl.1 && (!with_sk || skp.2)
  if ret then (true, pl.2, if with_sk then skp.1 else secp256k1_scalar_zero)
  else (false, secp256k1_ge_const_g,
        if with_sk then secp256k1_scalar_one else secp256k1_scalar_zero)

/-! ## Schnorr protocol -/

/-- The nonce tag `"BIP0340/nonce"` as bytes. -/
def bip340_algo : List Nat := [66, 73, 80, 48, 51, 52, 48, 47, 110, 111, 110, 99, 101]

/-- The tag `"BIP0340/aux"` as bytes. -/
def bip340_aux_tag : List Nat := [66, 73, 80, 48, 51, 52, 48, 47, 97, 117, 120]

/-- The tag `"BIP0340/challenge"` as bytes. -/
def bip340_challenge_tag : List Nat :=
  [66, 73, 80, 48, 51, 52, 48, 47, 99, 104, 97, 108, 108, 101, 110, 103, 101]

/-- `secp256k1_nonce_function_bip340_sha256_tagged`: precomputed midstate
for the `"BIP0340/nonce"` tag and a byte counter of 64. -/
def secp256k1_nonce_function_bip340_sha256_tagged : secp256k1_sha256 :=
  { secp256k1_sha256_start with
    s := [0x46615b35, 0xf4bfbff7, 0x9f8dc671, 0x83627ab3,
          0x60217180, 0x57358661, 0x21a29e54, 0x68b07b4c],
    bytes := 64 }

/-- `secp256k1_nonce_function_bip340_sha256_tagged_aux`: precomputed midstate
for the `"BIP0340/aux"` tag and a byte counter of 64. -/
def secp256k1_nonce_function_bip340_sha256_tagged_aux : secp256k1_sha256 :=
  { secp256k1_sha256_start with
    s := [0x24dd3219, 0x4eba7e70, 0xca0fabb9, 0x0fa3166d,
          0x3afbe4b1, 0x4c44df97, 0x4aac2739, 0x249e850a],
    bytes := 64 }

/-- `secp256k1_schnorrsig_sha256_tagged`: precomputed midstate for the
`"BIP0340/challenge"` tag and a byte counter of 64. -/
def secp256k1_schnorrsig_sha256_tagged : secp256k1_sha256 :=
  { secp256k1_sha256_start with
    s := [0x9cecba11, 0x23925381, 0x11679112, 0xd1627e0f,
          0x97c87550, 0x003cc765, 0x90f61164, 0x33e9b66a],
    bytes := 64 }

/-- The hard-coded `ZERO_MASK` constant of `nonce_function_bip340`. -/
def ZERO_MASK : List Nat :=
  [84, 241, 105, 207, 201, 226, 229, 114,
   116, 128, 68, 31, 144, 186, 37, 196,
   136, 244, 97, 199, 11, 94, 165, 220,
   170, 247, 175, 105, 39, 10, 165, 20]

/-- `nonce_function_bip340`: derive the 32-byte nonce.  `data` is the
optional 32-byte aux randomness; a `none` algo makes the function fail. -/
def nonce_function_bip340 (msg key32 xonly_pk32 : List Nat) (algo : Option (List Nat))
    (data : Option (List Nat)) : Option (List Nat) :=
  match algo with
  | none => none
  | some algo =>
    let masked_key :=
      match data with
      | some d =>
        let sha := secp256k1_nonce_function_bip340_sha256_tagged_aux
        let sha := secp256k1_sha256_write sha (d.take 32)
        let buf := secp256k1_sha256_finalize sha
        (List.range 32).map fun i => buf.getD i 0 ^^^ key32.getD i 0
      | none =>
        (List.range 32).map fun i => key32.getD i 0 ^^^ ZERO_MASK.getD i 0
    let sha :=
      if algo.length = bip340_algo.length ∧
          secp256k1_memcmp_var algo bip340_algo algo.length = 0 then
        secp256k1_nonce_function_bip340_sha256_tagged
      else
        secp256k1_sha256_initialize_tagged algo
    let sha := secp256k1_sha256_write sha masked_key
    let sha := secp256k1_sha256_write sha (xonly_pk32.take 32)
    let sha := secp256k1_sha256_write sha msg
    some (secp256k1_sha256_finalize sha)

/-- Type of hardened nonce functions (message bytes, key bytes, x-only
pubkey bytes, algo tag, aux data). -/
def NonceFn : Type :=
  List Nat → List Nat → List Nat → Option (List Nat) → Option (List Nat) →
    Option (List Nat)

/-- `secp256k1_schnorrsig_challenge`: `e = TaggedHash("BIP0340/challenge",
r32 || pk32 || msg) mod n`. -/
def secp256k1_schnorrsig_challenge (r32 msg pubkey32 : List Nat) : secp256k1_scalar :=
  let sha := secp256k1_schnorrsig_sha256_tagged
  let sha := secp256k1_sha256_write sha (r32.take 32)
  let sha := secp256k1_sha256_write sha (pubkey32.take 32)
  let sha := secp256k1_sha256_write sha msg
  (secp256k1_scalar_set_b32 (secp256k1_sha256_finalize sha)).1

/-- `secp256k1_schnorrsig_sign_internal`.  `gen_oracle` stands for the
aborting `secp256k1_ecmult_gen` stub (it returns the Jacobian point left in
`rj`); `built` is the context's `ecmult_gen_ctx.built` flag; `sig64` is the
caller's signature buffer (with its initial contents), `none` for a null
pointer; `msg`/`msglen` model the message pointer and the length argument.
The returned pair is the C return value together with the final contents of
the signature buffer. -/
def secp256k1_schnorrsig_sign_internal
    (gen_oracle : secp256k1_scalar → secp256k1_gej) (noncefp : Option NonceFn)
    (built : Bool) (sig64 : Option (List Nat)) (msg : Option (List Nat)) (msglen : Nat)
    (keypair : Option (List Nat)) (ndata : Option (List Nat)) :
    Bool × Option (List Nat) :=
  if !built then (false, sig64)
  else
    match sig64 with
    | none => (false, none)
    | some sig0 =>
      if msg.isNone ∧ msglen ≠ 0 then (false, some sig0)
      else
        match keypair with
        | none => (false, some sig0)
        | some kp =>
          let noncefp := noncefp.getD nonce_function_bip340
          let kl := secp256k1_keypair_load true kp
          let ret := kl.1
          let pk := kl.2.1
          let sk := if secp256k1_fe_is_odd pk.y then secp256k1_scalar_negate kl.2.2
                    else kl.2.2
          let seckey := secp256k1_scalar_get_b32 sk
          let pk_buf := secp256k1_fe_get_b32 pk.x
          let nres := noncefp (msg.getD []) seckey pk_buf (some bip340_algo) ndata
          let ret := ret && nres.isSome
          let nonce32 := nres.getD (List.replicate 32 0)
          let k0 := (secp256k1_scalar_set_b32 nonce32).1
          let ret := ret && !secp256k1_scalar_is_zero k0
          let k := secp256k1_scalar_cmov k0 secp256k1_scalar_one (!ret)
          let r := secp256k1_ge_set_gej (gen_oracle k)
          let ry := secp256k1_fe_normalize_var r.y
          let k := if secp256k1_fe_is_odd ry then secp256k1_scalar_negate k else k
          let rx := secp256k1_fe_normalize_var r.x
          let siglo := secp256k1_fe_get_b32 rx
          let e := secp256k1_schnorrsig_challenge siglo (msg.getD []) pk_buf
          let e := (secp256k1_scalar_add (secp256k1_scalar_mul e sk) k).1
          let sighi := secp256k1_scalar_get_b32 e
          (ret, some (secp256k1_memczero (siglo ++ sighi) (!ret)))

/-- `secp256k1_schnorrsig_sign32`: sign a 32-byte message with the default
BIP-340 nonce function. -/
def secp256k1_schnorrsig_sign32
    (gen_oracle : secp256k1_scalar → secp256k1_gej) (built : Bool)
    (sig64 : Option (List Nat)) (msg32 : Option (List Nat))
    (keypair : Option (List Nat)) (aux_rand32 : Option (List Nat)) :
    Bool × Option (List Nat) :=
  secp256k1_schnorrsig_sign_internal gen_oracle (some nonce_function_bip340) built
    sig64 msg32 32 keypair aux_rand32

/-- `secp256k1_schnorrsig_verify`.  `ecmult_oracle` stands for the aborting
`secp256k1_ecmult` stub (given `pkj`, `-e` and `s`, it returns the Jacobian
point left in `rj`); the remaining arguments model the C parameters with
`none` for null pointers. -/
def secp256k1_schnorrsig_verify
    (ecmult_oracle : secp256k1_gej → secp256k1_scalar → secp256k1_scalar → secp256k1_gej)
    (sig64 : Option (List Nat)) (msg : Option (List Nat)) (msglen : Nat)
    (pubkey : Option (List Nat)) : Bool :=
  match sig64 with
  | none => false
  | some sig =>
    if msg.isNone ∧ msglen ≠ 0 then false
    else
      match pubkey with
      | none => false
      | some pub =>
        let fl := secp256k1_fe_set_b32_limit (sig.take 32)
        if !fl.2 then false
        else
          let sp := secp256k1_scalar_set_b32 (sig.drop 32)
          if sp.2 ≠ 0 then false
          else
            let pl := secp256k1_xonly_pubkey_load pub
            if !pl.1 then false
            else
              let pk := pl.2
              let buf := secp256k1_fe_get_b32 pk.x
              let e := secp256k1_schnorrsig_challenge (sig.take 32) (msg.getD []) buf
              let rj := ecmult_oracle (secp256k1_gej_set_ge pk)
                (secp256k1_scalar_negate e) sp.1
              let r := secp256k1_ge_set_gej_var rj
              if secp256k1_ge_is_infinity r then false
              else
                let ry := secp256k1_fe_normalize_var r.y
                !secp256k1_fe_is_odd ry && secp256k1_fe_equal fl.1 r.x

/-! ## Modular exponentiation helper (for the primality certificates) -/

/-- Binary modular exponentiation with a structural fuel counter; when the
fuel runs out it falls back to the specification itself. -/
def powMod : Nat → Nat → Nat → Nat → Nat
  | 0, a, e, m => a ^ e % m
  | fuel + 1, a, e, m =>
    if e = 0 then 1 % m
    else
      let h := powMod fuel (a * a % m) (e / 2) m
      if e % 2 = 1 then h * a % m else h

/-- Big-endian integer value of a byte string. -/
def beVal (l : List Nat) : Nat := l.foldl (fun acc b => acc * 256 + b) 0

/-- All elements of a byte list are in byte range. -/
def okBytes (l : List Nat) : Prop := ∀ b ∈ l, b < 256

instance (l : List Nat) : Decidable (okBytes l) := by
  unfold okBytes; infer_instance

/-- Value of a carry triple. -/
def carryVal (c : carry3) : Nat := c.c0 + c.c1 * 2 ^ 64 + c.c2 * 2 ^ 128

/-- Limb ranges of a carry triple. -/
def carryOk (c : carry3) : Prop := c.c0 < W64 ∧ c.c1 < W64 ∧ c.c2 < W32

/-- Value of the eight-limb product. -/
def l8Val (l : List Nat) : Nat :=
  l.getD 0 0 + l.getD 1 0 * 2 ^ 64 + l.getD 2 0 * 2 ^ 128 + l.getD 3 0 * 2 ^ 192 +
  l.getD 4 0 * 2 ^ 256 + l.getD 5 0 * 2 ^ 320 + l.getD 6 0 * 2 ^ 384 + l.getD 7 0 * 2 ^ 448

/-! # Theorems -/

/-! ## Bit-twiddling helpers -/

theorem lor_eq_add {k : Nat} (a b : Nat) (ha : a % 2 ^ k = 0) (hb : b < 2 ^ k) :
    a ||| b = a + b := by
  obtain ⟨c, rfl⟩ := Nat.dvd_of_mod_eq_zero ha
  exact (Nat.mul_add_lt_is_or hb c).symm

theorem land_mask (x k : Nat) : x &&& (2 ^ k - 1) = x % 2 ^ k :=
  Nat.and_pow_two_sub_one_eq_mod x k

theorem shiftRight_div (x k : Nat) : x >>> k = x / 2 ^ k :=
  Nat.shiftRight_eq_div_pow x k

theorem shiftLeft_mul (x k : Nat) : x <<< k = x * 2 ^ k :=
  Nat.shiftLeft_eq x k

/-! ## Carry-triple lemmas for the scalar multiplication macros -/

theorem sc_muladd_spec (c : carry3) (a b : Nat)
    (h0 : c.c0 < W64) (h1 : c.c1 < W64) (h2 : c.c2 < W32) (ha : a < W64) (hb : b < W64)
    (hbig : c.c0 + c.c1 * 2 ^ 64 + c.c2 * 2 ^ 128 + a * b < 2 ^ 160) :
    (sc_muladd c a b).c0 + (sc_muladd c a b).c1 * 2 ^ 64 +
        (sc_muladd c a b).c2 * 2 ^ 128 =
      c.c0 + c.c1 * 2 ^ 64 + c.c2 * 2 ^ 128 + a * b ∧
    (sc_muladd c a b).c0 < W64 ∧ (sc_muladd c a b).c1 < W64 ∧
    (sc_muladd c a b).c2 < W32 ∧ (sc_muladd c a b).c2 ≤ c.c2 + 1 := by
  have hab : a * b ≤ (2 ^ 64 - 1) * (2 ^ 64 - 1) :=
    Nat.mul_le_mul (by simp [W64] at ha; omega) (by simp [W64] at hb; omega)
  have h128 : a * b % W128 = a * b := Nat.mod_eq_of_lt (by simp [W128]; omega)
  simp only [sc_muladd, secp256k1_u128_mul, secp256k1_u128_hi_u64,
    secp256k1_u128_to_u64, shiftRight_div, h128, W64, W32, W128] at *
  split_ifs <;> omega

theorem sc_muladd_fast_spec (c : carry3) (a b : Nat)
    (h0 : c.c0 < W64) (h1 : c.c1 < W64) (ha : a < W64) (hb : b < W64)
    (hbig : c.c0 + c.c1 * 2 ^ 64 + a * b < 2 ^ 128) :
    (sc_muladd_fast c a b).c0 + (sc_muladd_fast c a b).c1 * 2 ^ 64 =
      c.c0 + c.c1 * 2 ^ 64 + a * b ∧
    (sc_muladd_fast c a b).c2 = c.c2 ∧
    (sc_muladd_fast c a b).c0 < W64 ∧ (sc_muladd_fast c a b).c1 < W64 := by
  have hab : a * b ≤ (2 ^ 64 - 1) * (2 ^ 64 - 1) :=
    Nat.mul_le_mul (by simp [W64] at ha; omega) (by simp [W64] at hb; omega)
  have h128 : a * b % W128 = a * b := Nat.mod_eq_of_lt (by simp [W128]; omega)
  simp only [sc_muladd_fast, secp256k1_u128_mul, secp256k1_u128_hi_u64,
    secp256k1_u128_to_u64, shiftRight_div, h128, and_true, true_and, W64, W32, W128] at *
  split_ifs <;> omega

theorem sc_sumadd_spec (c : carry3) (a : Nat)
    (h0 : c.c0 < W64) (h1 : c.c1 < W64) (h2 : c.c2 < W32) (ha : a < W64)
    (hbig : c.c0 + c.c1 * 2 ^ 64 + c.c2 * 2 ^ 128 + a < 2 ^ 160) :
    (sc_sumadd c a).c0 + (sc_sumadd c a).c1 * 2 ^ 64 + (sc_sumadd c a).c2 * 2 ^ 128 =
      c.c0 + c.c1 * 2 ^ 64 + c.c2 * 2 ^ 128 + a ∧
    (sc_sumadd c a).c0 < W64 ∧ (sc_sumadd c a).c1 < W64 ∧ (sc_sumadd c a).c2 < W32 ∧
    (sc_sumadd c a).c2 ≤ c.c2 + 1 := by
  simp only [sc_sumadd, and_true, true_and, W64, W32] at *
  split_ifs <;> omega

theorem sc_sumadd_fast_spec (c : carry3) (a : Nat)
    (h0 : c.c0 < W64) (h1 : c.c1 < W64) (ha : a < W64)
    (hbig : c.c0 + c.c1 * 2 ^ 64 + a < 2 ^ 128) :
    (sc_sumadd_fast c a).c0 + (sc_sumadd_fast c a).c1 * 2 ^ 64 =
      c.c0 + c.c1 * 2 ^ 64 + a ∧
    (sc_sumadd_fast c a).c2 = c.c2 ∧
    (sc_sumadd_fast c a).c0 < W64 ∧ (sc_sumadd_fast c a).c1 < W64 := by
  simp only [sc_sumadd_fast, and_true, true_and, W64, W32] at *
  split_ifs <;> omega



/-! ## Scalar multiplication: 512-bit product correctness -/

theorem sc_big_norm (x0 x1 x2 pd : Nat) (h0 : x0 < 2 ^ 64) (h1 : x1 < 2 ^ 64)
    (h2 : x2 ≤ 4) (hp : pd ≤ (2 ^ 64 - 1) * (2 ^ 64 - 1)) :
    x0 + x1 * 2 ^ 64 + x2 * 2 ^ 128 + pd < 2 ^ 160 := by omega

theorem secp256k1_scalar_mul_512_spec (a b : secp256k1_scalar)
    (ha : scalarLimbsOk a) (hb : scalarLimbsOk b) :
    (∀ x ∈ secp256k1_scalar_mul_512 a b, x < W64) ∧
    l8Val (secp256k1_scalar_mul_512 a b) = scalarVal a * scalarVal b := by
  obtain ⟨ha0, ha1, ha2, ha3⟩ := ha
  obtain ⟨hb0, hb1, hb2, hb3⟩ := hb
  simp only [W64] at ha0 ha1 ha2 ha3 hb0 hb1 hb2 hb3
  have hpb : ∀ x y : Nat, x < 2 ^ 64 → y < 2 ^ 64 → x * y ≤ (2 ^ 64 - 1) * (2 ^ 64 - 1) :=
    fun x y hx hy => Nat.mul_le_mul (by omega) (by omega)
  have hp00 := hpb a.d0 b.d0 ha0 hb0
  have hp01 := hpb a.d0 b.d1 ha0 hb1
  have hp02 := hpb a.d0 b.d2 ha0 hb2
  have hp03 := hpb a.d0 b.d3 ha0 hb3
  have hp10 := hpb a.d1 b.d0 ha1 hb0
  have hp11 := hpb a.d1 b.d1 ha1 hb1
  have hp12 := hpb a.d1 b.d2 ha1 hb2
  have hp13 := hpb a.d1 b.d3 ha1 hb3
  have hp20 := hpb a.d2 b.d0 ha2 hb0
  have hp21 := hpb a.d2 b.d1 ha2 hb1
  have hp22 := hpb a.d2 b.d2 ha2 hb2
  have hp23 := hpb a.d2 b.d3 ha2 hb3
  have hp30 := hpb a.d3 b.d0 ha3 hb0
  have hp31 := hpb a.d3 b.d1 ha3 hb1
  have hp32 := hpb a.d3 b.d2 ha3 hb2
  have hp33 := hpb a.d3 b.d3 ha3 hb3
  unfold secp256k1_scalar_mul_512
  lift_lets
  intro c1 e1 l0 c2 c3 e2 l1 c4 c5 c6 e3 l2 c7 c8 c9 c10 e4 l3 c11 c12 c13 e5 l4 c14 c15 e6 l5 c16 e7 l6 l7
  have v1 : c1.c0 + c1.c1 * 2 ^ 64 = 0 + 0 * 2 ^ 64 + a.d0 * b.d0 ∧
      c1.c2 = 0 ∧ c1.c0 < 2 ^ 64 ∧ c1.c1 < 2 ^ 64 :=
    sc_muladd_fast_spec ⟨0, 0, 0⟩ a.d0 b.d0 (by show (0:Nat) < 2 ^ 64; omega) (by show (0:Nat) < 2 ^ 64; omega) ha0 hb0
      (by show 0 + 0 * 2 ^ 64 + a.d0 * b.d0 < 2 ^ 128; omega)
  have el0 : l0 = c1.c0 := rfl
  have v2 : c2.c0 + c2.c1 * 2 ^ 64 + c2.c2 * 2 ^ 128 = c1.c1 + 0 * 2 ^ 64 + c1.c2 * 2 ^ 128 + a.d0 * b.d1 ∧
      c2.c0 < 2 ^ 64 ∧ c2.c1 < 2 ^ 64 ∧ c2.c2 < 2 ^ 32 ∧ c2.c2 ≤ c1.c2 + 1 :=
    sc_muladd_spec e1.2 a.d0 b.d1 v1.2.2.2 (by show (0:Nat) < 2 ^ 64; omega) (by show c1.c2 < 2 ^ 32; omega) ha0 hb1
      (sc_big_norm _ _ _ _ v1.2.2.2 (by show (0:Nat) < 2 ^ 64; omega) (by show c1.c2 ≤ 4; omega) hp01)
  have v3 : c3.c0 + c3.c1 * 2 ^ 64 + c3.c2 * 2 ^ 128 = c2.c0 + c2.c1 * 2 ^ 64 + c2.c2 * 2 ^ 128 + a.d1 * b.d0 ∧
      c3.c0 < 2 ^ 64 ∧ c3.c1 < 2 ^ 64 ∧ c3.c2 < 2 ^ 32 ∧ c3.c2 ≤ c2.c2 + 1 :=
    sc_muladd_spec c2 a.d1 b.d0 v2.2.1 v2.2.2.1 v2.2.2.2.1 ha1 hb0
      (sc_big_norm _ _ _ _ v2.2.1 v2.2.2.1 (by show c2.c2 ≤ 4; omega) hp10)
  have el1 : l1 = c3.c0 := rfl
  have v4 : c4.c0 + c4.c1 * 2 ^ 64 + c4.c2 * 2 ^ 128 = c3.c1 + c3.c2 * 2 ^ 64 + 0 * 2 ^ 128 + a.d0 * b.d2 ∧
      c4.c0 < 2 ^ 64 ∧ c4.c1 < 2 ^ 64 ∧ c4.c2 < 2 ^ 32 ∧ c4.c2 ≤ 0 + 1 :=
    sc_muladd_spec e2.2 a.d0 b.d2 v3.2.2.1 (by show c3.c2 < 2 ^ 64; omega) (by show (0:Nat) < 2 ^ 32; omega) ha0 hb2
      (sc_big_norm _ _ _ _ v3.2.2.1 (by show c3.c2 < 2 ^ 64; omega) (by show (0:Nat) ≤ 4; omega) hp02)
  have v5 : c5.c0 + c5.c1 * 2 ^ 64 + c5.c2 * 2 ^ 128 = c4.c0 + c4.c1 * 2 ^ 64 + c4.c2 * 2 ^ 128 + a.d1 * b.d1 ∧
      c5.c0 < 2 ^ 64 ∧ c5.c1 < 2 ^ 64 ∧ c5.c2 < 2 ^ 32 ∧ c5.c2 ≤ c4.c2 + 1 :=
    sc_muladd_spec c4 a.d1 b.d1 v4.2.1 v4.2.2.1 v4.2.2.2.1 ha1 hb1
      (sc_big_norm _ _ _ _ v4.2.1 v4.2.2.1 (by show c4.c2 ≤ 4; omega) hp11)
  have v6 : c6.c0 + c6.c1 * 2 ^ 64 + c6.c2 * 2 ^ 128 = c5.c0 + c5.c1 * 2 ^ 64 + c5.c2 * 2 ^ 128 + a.d2 * b.d0 ∧
      c6.c0 < 2 ^ 64 ∧ c6.c1 < 2 ^ 64 ∧ c6.c2 < 2 ^ 32 ∧ c6.c2 ≤ c5.c2 + 1 :=
    sc_muladd_spec c5 a.d2 b.d0 v5.2.1 v5.2.2.1 v5.2.2.2.1 ha2 hb0
      (sc_big_norm _ _ _ _ v5.2.1 v5.2.2.1 (by show c5.c2 ≤ 4; omega) hp20)
  have el2 : l2 = c6.c0 := rfl
  have v7 : c7.c0 + c7.c1 * 2 ^ 64 + c7.c2 * 2 ^ 128 = c6.c1 + c6.c2 * 2 ^ 64 + 0 * 2 ^ 128 + a.d0 * b.d3 ∧
      c7.c0 < 2 ^ 64 ∧ c7.c1 < 2 ^ 64 ∧ c7.c2 < 2 ^ 32 ∧ c7.c2 ≤ 0 + 1 :=
    sc_muladd_spec e3.2 a.d0 b.d3 v6.2.2.1 (by show c6.c2 < 2 ^ 64; omega) (by show (0:Nat) < 2 ^ 32; omega) ha0 hb3
      (sc_big_norm _ _ _ _ v6.2.2.1 (by show c6.c2 < 2 ^ 64; omega) (by show (0:Nat) ≤ 4; omega) hp03)
  have v8 : c8.c0 + c8.c1 * 2 ^ 64 + c8.c2 * 2 ^ 128 = c7.c0 + c7.c1 * 2 ^ 64 + c7.c2 * 2 ^ 128 + a.d1 * b.d2 ∧
      c8.c0 < 2 ^ 64 ∧ c8.c1 < 2 ^ 64 ∧ c8.c2 < 2 ^ 32 ∧ c8.c2 ≤ c7.c2 + 1 :=
    sc_muladd_spec c7 a.d1 b.d2 v7.2.1 v7.2.2.1 v7.2.2.2.1 ha1 hb2
      (sc_big_norm _ _ _ _ v7.2.1 v7.2.2.1 (by show c7.c2 ≤ 4; omega) hp12)
  have v9 : c9.c0 + c9.c1 * 2 ^ 64 + c9.c2 * 2 ^ 128 = c8.c0 + c8.c1 * 2 ^ 64 + c8.c2 * 2 ^ 128 + a.d2 * b.d1 ∧
      c9.c0 < 2 ^ 64 ∧ c9.c1 < 2 ^ 64 ∧ c9.c2 < 2 ^ 32 ∧ c9.c2 ≤ c8.c2 + 1 :=
    sc_muladd_spec c8 a.d2 b.d1 v8.2.1 v8.2.2.1 v8.2.2.2.1 ha2 hb1
      (sc_big_norm _ _ _ _ v8.2.1 v8.2.2.1 (by show c8.c2 ≤ 4; omega) hp21)
  have v10 : c10.c0 + c10.c1 * 2 ^ 64 + c10.c2 * 2 ^ 128 = c9.c0 + c9.c1 * 2 ^ 64 + c9.c2 * 2 ^ 128 + a.d3 * b.d0 ∧
      c10.c0 < 2 ^ 64 ∧ c10.c1 < 2 ^ 64 ∧ c10.c2 < 2 ^ 32 ∧ c10.c2 ≤ c9.c2 + 1 :=
    sc_muladd_spec c9 a.d3 b.d0 v9.2.1 v9.2.2.1 v9.2.2.2.1 ha3 hb0
      (sc_big_norm _ _ _ _ v9.2.1 v9.2.2.1 (by show c9.c2 ≤ 4; omega) hp30)
  have el3 : l3 = c10.c0 := rfl
  have v11 : c11.c0 + c11.c1 * 2 ^ 64 + c11.c2 * 2 ^ 128 = c10.c1 + c10.c2 * 2 ^ 64 + 0 * 2 ^ 128 + a.d1 * b.d3 ∧
      c11.c0 < 2 ^ 64 ∧ c11.c1 < 2 ^ 64 ∧ c11.c2 < 2 ^ 32 ∧ c11.c2 ≤ 0 + 1 :=
    sc_muladd_spec e4.2 a.d1 b.d3 v10.2.2.1 (by show c10.c2 < 2 ^ 64; omega) (by show (0:Nat) < 2 ^ 32; omega) ha1 hb3
      (sc_big_norm _ _ _ _ v10.2.2.1 (by show c10.c2 < 2 ^ 64; omega) (by show (0:Nat) ≤ 4; omega) hp13)
  have v12 : c12.c0 + c12.c1 * 2 ^ 64 + c12.c2 * 2 ^ 128 = c11.c0 + c11.c1 * 2 ^ 64 + c11.c2 * 2 ^ 128 + a.d2 * b.d2 ∧
      c12.c0 < 2 ^ 64 ∧ c12.c1 < 2 ^ 64 ∧ c12.c2 < 2 ^ 32 ∧ c12.c2 ≤ c11.c2 + 1 :=
    sc_muladd_spec c11 a.d2 b.d2 v11.2.1 v11.2.2.1 v11.2.2.2.1 ha2 hb2
      (sc_big_norm _ _ _ _ v11.2.1 v11.2.2.1 (by show c11.c2 ≤ 4; omega) hp22)
  have v13 : c13.c0 + c13.c1 * 2 ^ 64 + c13.c2 * 2 ^ 128 = c12.c0 + c12.c1 * 2 ^ 64 + c12.c2 * 2 ^ 128 + a.d3 * b.d1 ∧
      c13.c0 < 2 ^ 64 ∧ c13.c1 < 2 ^ 64 ∧ c13.c2 < 2 ^ 32 ∧ c13.c2 ≤ c12.c2 + 1 :=
    sc_muladd_spec c12 a.d3 b.d1 v12.2.1 v12.2.2.1 v12.2.2.2.1 ha3 hb1
      (sc_big_norm _ _ _ _ v12.2.1 v12.2.2.1 (by show c12.c2 ≤ 4; omega) hp31)
  have el4 : l4 = c13.c0 := rfl
  have v14 : c14.c0 + c14.c1 * 2 ^ 64 + c14.c2 * 2 ^ 128 = c13.c1 + c13.c2 * 2 ^ 64 + 0 * 2 ^ 128 + a.d2 * b.d3 ∧
      c14.c0 < 2 ^ 64 ∧ c14.c1 < 2 ^ 64 ∧ c14.c2 < 2 ^ 32 ∧ c14.c2 ≤ 0 + 1 :=
    sc_muladd_spec e5.2 a.d2 b.d3 v13.2.2.1 (by show c13.c2 < 2 ^ 64; omega) (by show (0:Nat) < 2 ^ 32; omega) ha2 hb3
      (sc_big_norm _ _ _ _ v13.2.2.1 (by show c13.c2 < 2 ^ 64; omega) (by show (0:Nat) ≤ 4; omega) hp23)
  have v15 : c15.c0 + c15.c1 * 2 ^ 64 + c15.c2 * 2 ^ 128 = c14.c0 + c14.c1 * 2 ^ 64 + c14.c2 * 2 ^ 128 + a.d3 * b.d2 ∧
      c15.c0 < 2 ^ 64 ∧ c15.c1 < 2 ^ 64 ∧ c15.c2 < 2 ^ 32 ∧ c15.c2 ≤ c14.c2 + 1 :=
    sc_muladd_spec c14 a.d3 b.d2 v14.2.1 v14.2.2.1 v14.2.2.2.1 ha3 hb2
      (sc_big_norm _ _ _ _ v14.2.1 v14.2.2.1 (by show c14.c2 ≤ 4; omega) hp32)
  have el5 : l5 = c15.c0 := rfl
  have v16 : c16.c0 + c16.c1 * 2 ^ 64 = c15.c1 + c15.c2 * 2 ^ 64 + a.d3 * b.d3 ∧
      c16.c2 = 0 ∧ c16.c0 < 2 ^ 64 ∧ c16.c1 < 2 ^ 64 :=
    sc_muladd_fast_spec e6.2 a.d3 b.d3 v15.2.2.1 (by show c15.c2 < 2 ^ 64; omega) ha3 hb3
      (by show c15.c1 + c15.c2 * 2 ^ 64 + a.d3 * b.d3 < 2 ^ 128; omega)
  have el6 : l6 = c16.c0 := rfl
  have el7 : l7 = c16.c1 := rfl
  refine ⟨?_, ?_⟩
  · simp only [List.mem_cons, List.not_mem_nil, or_false, W64]
    rintro x (rfl | rfl | rfl | rfl | rfl | rfl | rfl | rfl) <;> omega
  · have hAB : scalarVal a * scalarVal b =
        a.d0 * b.d0 + (a.d0 * b.d1 + a.d1 * b.d0) * 2 ^ 64 +
        (a.d0 * b.d2 + a.d1 * b.d1 + a.d2 * b.d0) * 2 ^ 128 +
        (a.d0 * b.d3 + a.d1 * b.d2 + a.d2 * b.d1 + a.d3 * b.d0) * 2 ^ 192 +
        (a.d1 * b.d3 + a.d2 * b.d2 + a.d3 * b.d1) * 2 ^ 256 +
        (a.d2 * b.d3 + a.d3 * b.d2) * 2 ^ 320 + a.d3 * b.d3 * 2 ^ 384 := by
      simp only [scalarVal]; ring
    have w1 := v1.1
    have w1c := v1.2.1
    have w2 := v2.1
    have w3 := v3.1
    have w4 := v4.1
    have w5 := v5.1
    have w6 := v6.1
    have w7 := v7.1
    have w8 := v8.1
    have w9 := v9.1
    have w10 := v10.1
    have w11 := v11.1
    have w12 := v12.1
    have w13 := v13.1
    have w14 := v14.1
    have w15 := v15.1
    have w16 := v16.1
    have w16c := v16.2.1
    clear v1 v2 v3 v4 v5 v6 v7 v8 v9 v10 v11 v12 v13 v14 v15 v16
    clear hp00 hp01 hp02 hp03 hp10 hp11 hp12 hp13 hp20 hp21 hp22 hp23 hp30 hp31 hp32 hp33
    clear hpb ha0 ha1 ha2 ha3 hb0 hb1 hb2 hb3
    simp only [l8Val, List.getD_cons_zero, List.getD_cons_succ]
    omega

theorem secp256k1_scalar_check_overflow_spec (r : secp256k1_scalar)
    (h0 : r.d0 < W64) (h1 : r.d1 < W64) (h2 : r.d2 < W64) (h3 : r.d3 < W64) :
    (secp256k1_scalar_check_overflow r = true) ↔ nOrder ≤ scalarVal r := by
  simp only [secp256k1_scalar_check_overflow, SECP256K1_N_0, SECP256K1_N_1, SECP256K1_N_2,
    SECP256K1_N_3, scalarVal, nOrder, W64, Bool.or_eq_true, Bool.and_eq_true,
    decide_eq_true_eq, Bool.not_eq_true', Bool.or_eq_false_iff, decide_eq_false_iff_not,
    gt_iff_lt, ge_iff_le, not_or, not_lt] at *
  omega

theorem secp256k1_scalar_reduce_spec (r : secp256k1_scalar) (o : Nat)
    (h0 : r.d0 < W64) (h1 : r.d1 < W64) (h2 : r.d2 < W64) (h3 : r.d3 < W64) (ho : o ≤ 1) :
    scalarVal (secp256k1_scalar_reduce r o) =
      (scalarVal r + o * (2 ^ 256 - nOrder)) % 2 ^ 256 ∧
    scalarLimbsOk (secp256k1_scalar_reduce r o) := by
  simp only [W64] at h0 h1 h2 h3
  unfold secp256k1_scalar_reduce
  lift_lets
  intro t1 t2 d0 t3 t4 t5 d1 t6 t7 t8 d2 t9 t10 d3
  have e1 : t1 = r.d0 := rfl
  have e2 : t2 = (t1 + o * SECP256K1_N_C_0 % W64) % W128 := rfl
  have e3 : d0 = t2 % W64 := rfl
  have e4 : t3 = t2 >>> 64 := rfl
  have e5 : t4 = (t3 + r.d1) % W128 := rfl
  have e6 : t5 = (t4 + o * SECP256K1_N_C_1 % W64) % W128 := rfl
  have e7 : d1 = t5 % W64 := rfl
  have e8 : t6 = t5 >>> 64 := rfl
  have e9 : t7 = (t6 + r.d2) % W128 := rfl
  have e10 : t8 = (t7 + o * SECP256K1_N_C_2 % W64) % W128 := rfl
  have e11 : d2 = t8 % W64 := rfl
  have e12 : t9 = t8 >>> 64 := rfl
  have e13 : t10 = (t9 + r.d3) % W128 := rfl
  have e14 : d3 = t10 % W64 := rfl
  clear_value t1 t2 d0 t3 t4 t5 d1 t6 t7 t8 d2 t9 t10 d3
  have hc0 : SECP256K1_N_C_0 = 4624529908474429119 := by decide
  have hc1 : SECP256K1_N_C_1 = 4994812053365940164 := by decide
  have hc2 : SECP256K1_N_C_2 = 1 := by decide
  rw [hc0] at e2
  rw [hc1] at e6
  rw [hc2] at e10
  simp only [shiftRight_div, W64, W128] at e1 e2 e3 e4 e5 e6 e7 e8 e9 e10 e11 e12 e13 e14
  rw [Nat.mod_eq_of_lt (a := o * 4624529908474429119) (by omega)] at e2
  rw [e1] at e2
  rw [Nat.mod_eq_of_lt (a := r.d0 + o * 4624529908474429119) (by omega)] at e2
  have b3 : t3 ≤ 1 := by omega
  rw [Nat.mod_eq_of_lt (a := t3 + r.d1) (by omega)] at e5
  rw [Nat.mod_eq_of_lt (a := o * 4994812053365940164) (by omega)] at e6
  rw [e5] at e6
  rw [Nat.mod_eq_of_lt (a := t3 + r.d1 + o * 4994812053365940164) (by omega)] at e6
  have b6 : t6 ≤ 1 := by omega
  rw [Nat.mod_eq_of_lt (a := t6 + r.d2) (by omega)] at e9
  rw [Nat.mod_eq_of_lt (a := o * 1) (by omega)] at e10
  rw [e9] at e10
  rw [Nat.mod_eq_of_lt (a := t6 + r.d2 + o * 1) (by omega)] at e10
  have b9 : t9 ≤ 1 := by omega
  rw [Nat.mod_eq_of_lt (a := t9 + r.d3) (by omega)] at e13
  have hn : nOrder = 115792089237316195423570985008687907852837564279074904382605163141518161494337 := by
    decide
  simp only [scalarVal, scalarLimbsOk, W64, hn]
  refine ⟨?_, by omega, by omega, by omega, by omega⟩
  omega

/-! ## Claim C2: tagged-hash midstate fastpaths -/

set_option maxRecDepth 10000 in
/-- Claim C2 (corrected): for each of the three tags `"BIP0340/aux"`,
`"BIP0340/nonce"` and `"BIP0340/challenge"`, the precomputed midstate
fastpath (state words and byte counter 64) equals the state produced by the
generic `secp256k1_sha256_initialize_tagged` construction
`SHA256(SHA256(tag) || SHA256(tag))` on that tag.  (The `"BIP0340/aux"`
midstate words are `24DD3219 4EBA7E70 CA0FABB9 0FA3166D 3AFBE4B1 4C44DF97
4AAC2739 249E850A`, not the words the spec lists for it.) -/
theorem C2_midstate_fastpath_matches_generic :
    ((secp256k1_sha256_initialize_tagged bip340_aux_tag).s =
        secp256k1_nonce_function_bip340_sha256_tagged_aux.s ∧
      (secp256k1_sha256_initialize_tagged bip340_aux_tag).bytes =
        secp256k1_nonce_function_bip340_sha256_tagged_aux.bytes ∧
      (secp256k1_sha256_initialize_tagged bip340_aux_tag).buf =
        secp256k1_nonce_function_bip340_sha256_tagged_aux.buf) ∧
    ((secp256k1_sha256_initialize_tagged bip340_algo).s =
        secp256k1_nonce_function_bip340_sha256_tagged.s ∧
      (secp256k1_sha256_initialize_tagged bip340_algo).bytes =
        secp256k1_nonce_function_bip340_sha256_tagged.bytes ∧
      (secp256k1_sha256_initialize_tagged bip340_algo).buf =
        secp256k1_nonce_function_bip340_sha256_tagged.buf) ∧
    ((secp256k1_sha256_initialize_tagged bip340_challenge_tag).s =
        secp256k1_schnorrsig_sha256_tagged.s ∧
      (secp256k1_sha256_initialize_tagged bip340_challenge_tag).bytes =
        secp256k1_schnorrsig_sha256_tagged.bytes ∧
      (secp256k1_sha256_initialize_tagged bip340_challenge_tag).buf =
        secp256k1_schnorrsig_sha256_tagged.buf) := by decide

set_option maxRecDepth 10000 in
/-- Claim C2, counterexample to the words the claim lists for the
`"BIP0340/aux"` midstate: neither the hard-coded fastpath state nor the
generic tagged construction on `"BIP0340/aux"` yields
`46615B35 F4BFBFF7 9F8DC671 83627AB3 60217180 57358661 21A29E54 68B07B4C`
(those are the `"BIP0340/nonce"` midstate words). -/
theorem C2_aux_midstate_differs_from_claimed_words :
    secp256k1_nonce_function_bip340_sha256_tagged_aux.s ≠
      [0x46615b35, 0xf4bfbff7, 0x9f8dc671, 0x83627ab3,
       0x60217180, 0x57358661, 0x21a29e54, 0x68b07b4c] ∧
    (secp256k1_sha256_initialize_tagged bip340_aux_tag).s ≠
      [0x46615b35, 0xf4bfbff7, 0x9f8dc671, 0x83627ab3,
       0x60217180, 0x57358661, 0x21a29e54, 0x68b07b4c] := by decide

/-! ## Claim C3: the hard-coded ZERO_MASK constant -/

set_option maxRecDepth 10000 in
/-- Claim C3 (corrected): the hard-coded `ZERO_MASK` constant of
`nonce_function_bip340` equals `TaggedHash("BIP0340/aux", 0x00×32)`
computed by the generic tagged construction, and consequently deriving a
nonce with no aux randomness coincides with deriving it from 32 zero aux
bytes.  (Byte 11 of the constant is `0x1F`, not the `0x41` the spec
lists.) -/
theorem C3_zero_mask_is_tagged_hash_of_zeros :
    (ZERO_MASK = secp256k1_sha256_finalize
        (secp256k1_sha256_write (secp256k1_sha256_initialize_tagged bip340_aux_tag)
          (List.replicate 32 0))) ∧
    ∀ msg key32 pk32 : List Nat,
      nonce_function_bip340 msg key32 pk32 (some bip340_algo) none =
        nonce_function_bip340 msg key32 pk32 (some bip340_algo)
          (some (List.replicate 32 0)) := by
  constructor
  · decide
  · intro msg key32 pk32
    have hbuf : secp256k1_sha256_finalize
        (secp256k1_sha256_write secp256k1_nonce_function_bip340_sha256_tagged_aux
          ((List.replicate 32 0).take 32)) = ZERO_MASK := by decide
    simp only [nonce_function_bip340]
    rw [hbuf]
    simp only [Nat.xor_comm]

set_option maxRecDepth 10000 in
/-- Claim C3, counterexample to the byte string the claim lists for
`ZERO_MASK`: the code's constant differs from it (byte 11 is `0x1F = 31`,
the listed string has `0x41`). -/
theorem C3_zero_mask_differs_from_claimed_bytes :
    ZERO_MASK ≠
      [0x54, 0xF1, 0x69, 0xCF, 0xC9, 0xE2, 0xE5, 0x72,
       0x74, 0x80, 0x44, 0x41, 0x90, 0xBA, 0x25, 0xC4,
       0x88, 0xF4, 0x61, 0xC7, 0x0B, 0x5E, 0xA5, 0xDC,
       0xAA, 0xF7, 0xAF, 0x69, 0x27, 0x0A, 0xA5, 0x14] ∧
    ZERO_MASK.getD 11 0 = 0x1F := by decide


/-! ## Claim C10: keypair_load failure dummies -/

/-- Claim C10 (corrected): whenever `secp256k1_keypair_load` fails it returns
`false` and leaves its outputs in the well-defined dummy state: the public
key is set to the in-file constant `secp256k1_ge_const_g` and, when the
secret scalar was requested, that output is set to the scalar `1`.  (The
constant is not the secp256k1 generator point: this source's
`SECP256K1_GE_CONST` macro mis-packs the sixteen coordinate words, see the
counterexample theorem.) -/
theorem C10_keypair_load_failure_dummies (with_sk : Bool) (kp : List Nat)
    (h : (secp256k1_keypair_load with_sk kp).1 = false) :
    secp256k1_keypair_load with_sk kp =
      (false, secp256k1_ge_const_g,
        if with_sk then secp256k1_scalar_one else secp256k1_scalar_zero) := by
  by_cases hc : ((secp256k1_pubkey_load (kp.drop 32)).1 &&
      (!with_sk || (secp256k1_scalar_set_b32_seckey (kp.take 32)).2)) = true
  · simp [secp256k1_keypair_load, hc] at h
  · simp only [secp256k1_keypair_load]
    rw [if_neg hc]

/-- Claim C10, witness: the empty keypair fails to load and yields the dummy
outputs. -/
theorem C10_keypair_load_failure_dummies_witness :
    (secp256k1_keypair_load true []).1 = false ∧
    secp256k1_keypair_load true [] = (false, secp256k1_ge_const_g, secp256k1_scalar_one) :=
  ⟨by decide, C10_keypair_load_failure_dummies true [] (by decide)⟩

/-- Claim C10, counterexample to the words "set to the generator point G":
the dummy point stored on failure has an x-coordinate different from the
secp256k1 generator's, and does not even lie on the curve. -/
theorem C10_dummy_point_is_not_the_generator :
    feVal secp256k1_ge_const_g.x % pField ≠
      0x79BE667EF9DCBBAC55A06295CE870B07029BFCDB2DCE28D959F2815B16F81798 ∧
    feVal secp256k1_ge_const_g.y ^ 2 % pField ≠
      (feVal secp256k1_ge_const_g.x ^ 3 + 7) % pField := by decide

/-! ## Claim C7: signing failure and the output buffer -/

/-- Claim C7 (corrected): a signing call that passes the argument checks and
returns `false` leaves the 64-byte output buffer zero-filled; a call that
fails an argument check (generator table not built, null signature buffer,
null message with nonzero length, null keypair) returns `false` with the
buffer untouched. -/
theorem C7_sign_failure_buffer
    (gen_oracle : secp256k1_scalar → secp256k1_gej) (noncefp : Option NonceFn)
    (sig0 : List Nat) (msg : Option (List Nat)) (msglen : Nat) (kp : List Nat)
    (ndata : Option (List Nat)) :
    (∀ r, ¬ (msg.isNone ∧ msglen ≠ 0) →
      secp256k1_schnorrsig_sign_internal gen_oracle noncefp true (some sig0) msg msglen
        (some kp) ndata = (false, some r) → r = List.replicate 64 0) ∧
    (∀ (built : Bool) (sig64 keypair : Option (List Nat)),
      built = false ∨ (msg.isNone ∧ msglen ≠ 0) ∨ sig64 = none ∨ keypair = none →
      (secp256k1_schnorrsig_sign_internal gen_oracle noncefp built sig64 msg msglen
        keypair ndata).2 = sig64) := by
  constructor
  · intro r hmsg heq
    simp only [secp256k1_schnorrsig_sign_internal, Bool.not_true, Bool.false_eq_true,
      if_false, if_neg hmsg] at heq
    rw [Prod.mk.injEq] at heq
    obtain ⟨h1, h2⟩ := heq
    rw [h1] at h2
    rw [Option.some.injEq] at h2
    rw [← h2]
    simp [secp256k1_memczero, secp256k1_fe_get_b32, secp256k1_scalar_get_b32,
      secp256k1_write_be64]
  · intro built sig64 keypair h
    rcases h with h | h | h | h
    · subst h; rfl
    · cases built
      · rfl
      · cases sig64 with
        | none => rfl
        | some s =>
          simp only [secp256k1_schnorrsig_sign_internal, Bool.not_true,
            Bool.false_eq_true, if_false, if_pos h]
    · subst h
      cases built
      · rfl
      · rfl
    · subst h
      cases built
      · rfl
      · cases sig64 with
        | none => rfl
        | some s =>
          by_cases hm : (msg.isNone ∧ msglen ≠ 0)
          · simp only [secp256k1_schnorrsig_sign_internal, Bool.not_true,
              Bool.false_eq_true, if_false, if_pos hm]
          · simp only [secp256k1_schnorrsig_sign_internal, Bool.not_true,
              Bool.false_eq_true, if_false, if_neg hm]

/-- Claim C7, witness: a concrete late failure (empty keypair, which fails
to load) zero-fills the buffer, and a concrete argument-check failure
(`built = false`) leaves the buffer bytes `7` in place. -/
theorem C7_sign_failure_buffer_witness :
    List.replicate 64 0 = List.replicate 64 0 ∧
    (secp256k1_schnorrsig_sign_internal (fun _ => secp256k1_gej_set_infinity) none false
        (some (List.replicate 64 7)) none 5 none none).2 = some (List.replicate 64 7) :=
  ⟨(C7_sign_failure_buffer (fun _ => secp256k1_gej_set_infinity) none (List.replicate 64 7)
      (some (List.replicate 32 0)) 32 [] none).1 (List.replicate 64 0) (by decide)
      (by decide),
   (C7_sign_failure_buffer (fun _ => secp256k1_gej_set_infinity) none (List.replicate 64 7)
      none 5 [] none).2 false (some (List.replicate 64 7)) none (Or.inl rfl)⟩

/-- Claim C7, counterexample to "the buffer is zero-filled on every failing
call": a null message with nonzero length fails the argument check and
returns with the caller's buffer (all bytes `7`) unchanged, not zeroed. -/
theorem C7_arg_check_failure_leaves_buffer :
    (secp256k1_schnorrsig_sign_internal (fun _ => secp256k1_gej_set_infinity) none true
        (some (List.replicate 64 7)) none 5 none none) =
      (false, some (List.replicate 64 7)) ∧
    some (List.replicate 64 7) ≠ some (List.replicate 64 0) := by
  constructor
  · decide
  · decide

/-! ## Claim C9: null message pointer handling -/

/-- Claim C9 (corrected): a null message pointer with nonzero length is
rejected by both sign and verify; a null message pointer with length zero is
accepted and treated exactly like the empty message. -/
theorem C9_null_msg_handling :
    (∀ (gen_oracle : secp256k1_scalar → secp256k1_gej) (noncefp : Option NonceFn)
       (built : Bool) (sig64 : Option (List Nat)) (msglen : Nat)
       (keypair ndata : Option (List Nat)), msglen ≠ 0 →
      (secp256k1_schnorrsig_sign_internal gen_oracle noncefp built sig64 none msglen
        keypair ndata).1 = false) ∧
    (∀ (ecmult_oracle : secp256k1_gej → secp256k1_scalar → secp256k1_scalar → secp256k1_gej)
       (sig64 : Option (List Nat)) (msglen : Nat) (pubkey : Option (List Nat)),
      msglen ≠ 0 →
      secp256k1_schnorrsig_verify ecmult_oracle sig64 none msglen pubkey = false) ∧
    (∀ (gen_oracle : secp256k1_scalar → secp256k1_gej) (noncefp : Option NonceFn)
       (built : Bool) (sig64 keypair ndata : Option (List Nat)),
      secp256k1_schnorrsig_sign_internal gen_oracle noncefp built sig64 none 0
        keypair ndata =
      secp256k1_schnorrsig_sign_internal gen_oracle noncefp built sig64 (some []) 0
        keypair ndata) ∧
    (∀ (ecmult_oracle : secp256k1_gej → secp256k1_scalar → secp256k1_scalar → secp256k1_gej)
       (sig64 pubkey : Option (List Nat)),
      secp256k1_schnorrsig_verify ecmult_oracle sig64 none 0 pubkey =
      secp256k1_schnorrsig_verify ecmult_oracle sig64 (some []) 0 pubkey) := by
  refine ⟨?_, ?_, ?_, ?_⟩
  · intro gen_oracle noncefp built sig64 msglen keypair ndata h
    cases built
    · rfl
    · cases sig64 with
      | none => rfl
      | some s =>
        simp only [secp256k1_schnorrsig_sign_internal, Bool.not_true,
          Bool.false_eq_true, if_false]
        rw [if_pos ⟨rfl, h⟩]
  · intro ecmult_oracle sig64 msglen pubkey h
    cases sig64 with
    | none => rfl
    | some s =>
      simp only [secp256k1_schnorrsig_verify]
      rw [if_pos ⟨rfl, h⟩]
  · intro gen_oracle noncefp built sig64 keypair ndata
    cases built
    · rfl
    · cases sig64 with
      | none => rfl
      | some s =>
        cases keypair with
        | none =>
          simp [secp256k1_schnorrsig_sign_internal]
        | some kp =>
          simp [secp256k1_schnorrsig_sign_internal]
  · intro ecmult_oracle sig64 pubkey
    cases sig64 with
    | none => rfl
    | some s =>
      cases pubkey with
      | none => simp [secp256k1_schnorrsig_verify]
      | some pub => simp [secp256k1_schnorrsig_verify]

/-- Claim C9, witness: concrete rejections of a null message with length 5
in sign and verify. -/
theorem C9_null_msg_handling_witness :
    ((5 : Nat) ≠ 0) ∧
    (secp256k1_schnorrsig_sign_internal (fun _ => secp256k1_gej_set_infinity) none true
        (some (List.replicate 64 0)) none 5 (some []) none).1 = false ∧
    secp256k1_schnorrsig_verify (fun _ _ _ => secp256k1_gej_set_infinity)
        (some (List.replicate 64 0)) none 5 (some (List.replicate 64 0)) = false :=
  ⟨by decide,
   C9_null_msg_handling.1 (fun _ => secp256k1_gej_set_infinity) none true
     (some (List.replicate 64 0)) 5 (some []) none (by decide),
   C9_null_msg_handling.2.1 (fun _ _ _ => secp256k1_gej_set_infinity)
     (some (List.replicate 64 0)) 5 (some (List.replicate 64 0)) (by decide)⟩

set_option maxRecDepth 10000 in
/-- Claim C9, counterexample to "a null message pointer together with
message length zero is rejected": a concrete signing call with a null
message, length zero and a loadable keypair returns `true`. -/
theorem C9_null_msg_len_zero_accepted :
    (secp256k1_schnorrsig_sign_internal (fun _ => secp256k1_gej_set_infinity) none true
        (some (List.replicate 64 0)) none 0
        (some (List.replicate 31 0 ++ [1] ++ ([1] ++ List.replicate 63 0))) none).1 =
      true := by decide
